import Mathlib

/-!
EVhdParser dispatch core.

A shallow embedding of `src/EVhdParser/Dispatch.c`: the subscription registry, the
per-subscriber queues of pended reads and pended messages, the broadcast engine
and the synchronous request table.

Conventions of the embedding.

* Intrusive `LIST_ENTRY` queues are Lean lists, head first; `InsertTailList` appends.
* A pointer to a list node is either the address stored in the node (`Addr`) or a
  split of the list around the node.
* Spin locks serialise the routines; every routine is a function on the state held
  under the lock. What other threads do while `DPT_SynchronouseRequest` is blocked
  is an explicit argument.
* A routine returns `none` when the C code would go through a NULL or dangling
  pointer, or (for the teardown loop) when it does not come back within the fuel.
* `IoCompleteRequest` is observable: routines hand back the IRPs they completed.
* A copy into a read buffer is recorded in the IRP (`Data`) with the address it is
  made to, its source and its length.
* Where routines race (a cancellation against delivery and teardown) an execution
  is a sequence of events, each being what one routine does under a lock or in one
  interlocked exchange.
-/

namespace EVhdParser

/-! ## Platform types -/

/-- NTSTATUS is a signed 32-bit value. -/
abbrev NTSTATUS := Int

/-- Reading of an integer as a two's-complement LONG. -/
def toLONG (n : Int) : Int := (n + 2 ^ 31) % 2 ^ 32 - 2 ^ 31

/-- Status codes of ntstatus.h used by Dispatch.c. -/
def STATUS_SUCCESS : NTSTATUS := 0
def STATUS_TIMEOUT : NTSTATUS := 0x102
def STATUS_PENDING : NTSTATUS := 0x103
def STATUS_INVALID_HANDLE : NTSTATUS := toLONG 0xC0000008
def STATUS_INVALID_PARAMETER : NTSTATUS := toLONG 0xC000000D
def STATUS_INVALID_DEVICE_REQUEST : NTSTATUS := toLONG 0xC0000010
def STATUS_INSUFFICIENT_RESOURCES : NTSTATUS := toLONG 0xC000009A
def STATUS_PIPE_LISTENING : NTSTATUS := toLONG 0xC00000B3
def STATUS_CANCELLED : NTSTATUS := toLONG 0xC0000120
def STATUS_INVALID_BUFFER_SIZE : NTSTATUS := toLONG 0xC0000206

/-- The macro of ntdef.h: `((NTSTATUS)(Status)) >= 0`. -/
def NT_SUCCESS (Status : NTSTATUS) : Bool := decide (0 ≤ Status)

/-- Pre-increment of a ULONG. -/
def ulongInc (n : Nat) : Nat := (n + 1) % 2 ^ 32

/-- Pre-decrement of a ULONG. -/
def ulongDec (n : Nat) : Nat := (((n : Int) - 1) % 2 ^ 32).toNat

/-- InterlockedIncrement on a LONG: the incremented value, wrapping. -/
def InterlockedIncrement (Addend : Int) : Int := toLONG (Addend + 1)

/-- The `sizeof` constants of the structures declared in the headers that are not
part of the sources (Dispatch.h, Log.h, cipher.h). -/
structure SIZES where
  PARSER_MESSAGE : Nat
  PARSER_RESPONSE_MESSAGE : Nat
  LOG_SETTINGS : Nat
  CREATE_SUBSCRIPTION_REQUEST : Nat
  EVHD_SET_CIPHER_CONFIG_REQUEST : Nat
deriving DecidableEq, Repr

/-- PARSER_MESSAGE (Dispatch.h): Dispatch.c touches only `RequestId`; the other
bytes of the fixed-size record are carried as `Body`. -/
structure PARSER_MESSAGE where
  RequestId : Int
  Body : List Nat
deriving DecidableEq, Repr

/-- PARSER_RESPONSE_MESSAGE (Dispatch.h): `RequestId` and the remaining bytes. -/
structure PARSER_RESPONSE_MESSAGE where
  RequestId : Int
  Body : List Nat
deriving DecidableEq, Repr

/-- The part of an MDL the code reads. `Mapped` is whether
MmGetSystemAddressForMdlSafe yields a non-NULL address, and `MappedSystemVa` is the
address it yields then. -/
structure MDL where
  ByteCount : Nat
  ByteOffset : Nat
  Mapped : Bool
  MappedSystemVa : Nat
deriving DecidableEq, Repr

/-- A `memmove(pBuffer, pSource, BytesToCopy)` into a read buffer: the first
`Length` bytes of the image of `Source`, written from address `Destination` on. -/
structure TRANSFER where
  Destination : Nat
  Source : PARSER_MESSAGE
  Length : Nat
deriving DecidableEq, Repr

structure IO_STATUS_BLOCK where
  Status : NTSTATUS
  Information : Nat
deriving DecidableEq, Repr

/-- The fields of an IRP used by the read path. `CancelRoutine` is true when the
cancel routine is DPT_ReadCancel and false when it is NULL. -/
structure IRP where
  Addr : Nat
  MdlAddress : Option MDL
  Cancel : Bool
  CancelRoutine : Bool
  IoStatus : IO_STATUS_BLOCK
  DriverContext0 : Option Nat
  PendingReturned : Bool
  Data : Option TRANSFER
deriving DecidableEq, Repr

structure REQUEST_ENTRY where
  Addr : Nat
  RequestId : Int
  Event : Bool
  StartTime : Int
  pResponse : Option PARSER_RESPONSE_MESSAGE
deriving DecidableEq, Repr

structure SUBSCRIPTION_CONTEXT where
  Addr : Nat
  pFileObject : Nat
  PendedReads : List IRP
  PendedReadsCount : Nat
  PendedMessages : List PARSER_MESSAGE
  PendedMessagesCount : Nat
  ServicingContext : Bool
deriving DecidableEq, Repr

/-- The dispatch globals. -/
structure DPT_STATE where
  DptSubscriptions : List SUBSCRIPTION_CONTEXT
  DptRequests : List REQUEST_ENTRY
  DptRequestCounter : Int
deriving DecidableEq, Repr

/-! ## Kernel primitives -/

/-- IoSetCancelRoutine: installs the routine and returns the previous one
(true when it was not NULL). -/
def IoSetCancelRoutine (pIrp : IRP) (routine : Bool) : IRP × Bool :=
  ({ pIrp with CancelRoutine := routine }, pIrp.CancelRoutine)

/-- KeWaitForSingleObject on a notification event, KernelMode, not alertable:
STATUS_SUCCESS when the event is signaled within the interval, STATUS_TIMEOUT
otherwise. -/
def KeWaitForSingleObject (Event : Bool) (_Timeout : Int) : NTSTATUS :=
  if Event then STATUS_SUCCESS else STATUS_TIMEOUT

/-- A pointer to the first node satisfying `p`, as a split of the list around it. -/
def locate {α : Type} (p : α → Bool) : List α → Option (List α × α × List α)
  | [] => none
  | x :: rest =>
    if p x then some ([], x, rest)
    else
      match locate p rest with
      | none => none
      | some (before, y, after) => some (x :: before, y, after)

/-! ## DPT_SendMessage (lines 641-705) -/

/-- Lines 655-678: walk PendedReads from the head; the first IRP whose cancel
routine was still set is claimed and unlinked. -/
def DPT_SendMessage.scan : List IRP → Option IRP × List IRP
  | [] => (none, [])
  | pIrp :: rest =>
    let r := IoSetCancelRoutine pIrp false
    if r.2 then (some r.1, rest)
    else ((DPT_SendMessage.scan rest).1, r.1 :: (DPT_SendMessage.scan rest).2)

/-- DPT_SendMessage: the context afterwards, `Sent`, and the IRPs completed. Line
685 computes `pBuffer` as the address MmGetSystemAddressForMdlSafe returns plus
`MdlAddress->ByteOffset`; the copy is recorded in `Data` with that destination. -/
def DPT_SendMessage (L : SIZES) (pContext : SUBSCRIPTION_CONTEXT) (pMessage : PARSER_MESSAGE) :
    Option (SUBSCRIPTION_CONTEXT × Bool × List IRP) :=
  if pContext.PendedReads.isEmpty then some (pContext, false, [])
  else
    match DPT_SendMessage.scan pContext.PendedReads with
    | (none, reads) => some ({ pContext with PendedReads := reads }, false, [])
    | (some pIrp, reads) =>
      let c1 := { pContext with
        PendedReads := reads, PendedReadsCount := ulongDec pContext.PendedReadsCount }
      match pIrp.MdlAddress with
      | none => none
      | some mdl =>
        if mdl.Mapped then
          let pBuffer := mdl.MappedSystemVa + mdl.ByteOffset
          let BytesRemaining := mdl.ByteCount
          let BytesToCopy := min BytesRemaining L.PARSER_MESSAGE
          let pIrp1 := { pIrp with
            Data := some { Destination := pBuffer, Source := pMessage, Length := BytesToCopy },
            IoStatus := { Status := STATUS_SUCCESS, Information := BytesToCopy } }
          some (c1, true, [pIrp1])
        else none

/-! ## DPT_QueueMessage (lines 160-188) -/

/-- The body shared by DPT_QueueMessage (lines 173-183) and
DPT_SynchronouseRequest (lines 214-224): send, and when nothing was sent append a
copy to PendedMessages. The pool allocation is taken to succeed (the code does
not test it). -/
def DPT_SendOrQueue (L : SIZES) (pContext : SUBSCRIPTION_CONTEXT) (pMessage : PARSER_MESSAGE) :
    Option (SUBSCRIPTION_CONTEXT × List IRP) :=
  match DPT_SendMessage L pContext pMessage with
  | none => none
  | some (c1, Sent, done) =>
    if !Sent then
      some ({ c1 with
        PendedMessages := c1.PendedMessages ++ [pMessage],
        PendedMessagesCount := ulongInc c1.PendedMessagesCount }, done)
    else some (c1, done)

/-- The loop of lines 169-184 over DptSubscriptions. -/
def DPT_QueueMessage.loop (L : SIZES) (pMessage : PARSER_MESSAGE) :
    List SUBSCRIPTION_CONTEXT → Option (List SUBSCRIPTION_CONTEXT × List IRP)
  | [] => some ([], [])
  | pContext :: rest =>
    match DPT_SendOrQueue L pContext pMessage with
    | none => none
    | some (c1, done) =>
      match DPT_QueueMessage.loop L pMessage rest with
      | none => none
      | some (rest1, done1) => some (c1 :: rest1, done ++ done1)

def DPT_QueueMessage (L : SIZES) (s : DPT_STATE) (pMessage : PARSER_MESSAGE) :
    Option (DPT_STATE × List IRP) :=
  match DPT_QueueMessage.loop L pMessage s.DptSubscriptions with
  | none => none
  | some (subs, done) => some ({ s with DptSubscriptions := subs }, done)

/-! ## DPT_SynchronouseRequest (lines 190-245) -/

/-- Line 228, `Timeout.QuadPart = -10 * TimeoutMs`: `TimeoutMs` is a ULONG, so the
product is taken in 32-bit unsigned arithmetic and then widened to 64 bits. -/
def DPT_SynchronouseRequest.Timeout (TimeoutMs : Nat) : Int :=
  (-10 * (TimeoutMs : Int)) % 2 ^ 32

structure CALL_RESULT where
  State : DPT_STATE
  Request : PARSER_MESSAGE
  Response : Option PARSER_RESPONSE_MESSAGE
  Result : Bool
  Timeout : Option Int
  WaitStatus : Option NTSTATUS
  Completed : List IRP
deriving DecidableEq, Repr

/-- Lines 199-229, up to the release of DptLock before the wait: the state in which
the caller blocks, the request as sent, the interval, and the IRPs completed.
The inner `none` is the loop ending without a servicing context. -/
def DPT_SynchronouseRequest.issue (L : SIZES) (s : DPT_STATE) (pRequest : PARSER_MESSAGE)
    (pResponse : Option PARSER_RESPONSE_MESSAGE) (TimeoutMs : Nat) (pEntry : Nat)
    (SystemTime : Int) : Option (Option (DPT_STATE × PARSER_MESSAGE × Int × List IRP)) :=
  match locate (fun c => c.ServicingContext) s.DptSubscriptions with
  | none => some none
  | some (before, pContext, after) =>
    let counter := InterlockedIncrement s.DptRequestCounter
    let pRequest1 := { pRequest with RequestId := counter }
    let RequestEntry : REQUEST_ENTRY :=
      { Addr := pEntry, RequestId := pRequest1.RequestId, Event := false,
        StartTime := SystemTime, pResponse := pResponse }
    match DPT_SendOrQueue L pContext pRequest1 with
    | none => none
    | some (c1, done) =>
      some (some ({ DptSubscriptions := before ++ c1 :: after,
                    DptRequests := s.DptRequests ++ [RequestEntry],
                    DptRequestCounter := counter },
                  pRequest1, DPT_SynchronouseRequest.Timeout TimeoutMs, done))

/-- DPT_SynchronouseRequest. `pEntry` is the address of the stack-allocated
RequestEntry, `SystemTime` the value of KeQuerySystemTime, and `during` what the
other threads do to the dispatch state between the release of DptLock (line 229)
and its re-acquisition (line 231). -/
def DPT_SynchronouseRequest (L : SIZES) (s : DPT_STATE) (pRequest : PARSER_MESSAGE)
    (pResponse : Option PARSER_RESPONSE_MESSAGE) (TimeoutMs : Nat) (pEntry : Nat)
    (SystemTime : Int) (during : DPT_STATE → Option DPT_STATE) : Option CALL_RESULT :=
  match DPT_SynchronouseRequest.issue L s pRequest pResponse TimeoutMs pEntry SystemTime with
  | none => none
  | some none =>
    some { State := s, Request := pRequest, Response := pResponse, Result := false,
           Timeout := none, WaitStatus := none, Completed := [] }
  | some (some (s1, pRequest1, Timeout, done)) =>
    match during s1 with
    | none => none
    | some s2 =>
      match locate (fun e => decide (e.Addr = pEntry)) s2.DptRequests with
      | none => none
      | some (before, RequestEntry, after) =>
        let Status := KeWaitForSingleObject RequestEntry.Event Timeout
        let Result := NT_SUCCESS Status
        some { State := { s2 with DptRequests := before ++ after },
               Request := pRequest1, Response := RequestEntry.pResponse, Result := Result,
               Timeout := some Timeout, WaitStatus := some Status, Completed := done }

/-! ## DPT_FindRequestNoLock (lines 247-257) -/

/-- The first entry of DptRequests with the given RequestId, or NULL. -/
def DPT_FindRequestNoLock (DptRequests : List REQUEST_ENTRY) (RequestId : Int) :
    Option (List REQUEST_ENTRY × REQUEST_ENTRY × List REQUEST_ENTRY) :=
  locate (fun e => decide (e.RequestId = RequestId)) DptRequests

/-! ## DPT_ReadCancel (lines 289-309) -/

/-- DPT_ReadCancel, called by the I/O manager on an IRP whose cancel routine it has
taken: unlink from the queue of `DriverContext[0]` and complete as cancelled. -/
def DPT_ReadCancel (s : DPT_STATE) (pIrp : IRP) : Option (DPT_STATE × IRP) :=
  match pIrp.DriverContext0 with
  | none => none
  | some p =>
    match locate (fun c => decide (c.Addr = p)) s.DptSubscriptions with
    | none => none
    | some (before, pContext, after) =>
      match locate (fun x => decide (x.Addr = pIrp.Addr)) pContext.PendedReads with
      | none => none
      | some (front, _, back) =>
        let c1 := { pContext with
          PendedReads := front ++ back, PendedReadsCount := ulongDec pContext.PendedReadsCount }
        some ({ s with DptSubscriptions := before ++ c1 :: after },
              { pIrp with IoStatus := { Status := STATUS_CANCELLED, Information := 0 } })

/-! ## DPT_CancelPendingReads (lines 311-371) -/

/-- Lines 324-331: unlink and free every pended message. -/
def DPT_CancelPendingReads.messages : List PARSER_MESSAGE → Nat → List PARSER_MESSAGE × Nat
  | [], n => ([], n)
  | _ :: rest, n => DPT_CancelPendingReads.messages rest (ulongDec n)

/-- Lines 334-366: each test of the loop condition takes one unit of fuel. An IRP
whose cancel routine is already taken stays at the head while the loop delays;
nothing else runs in this sequential reading, so the loop then uses up its fuel. -/
def DPT_CancelPendingReads.reads : Nat → List IRP → Nat → Option (List IRP × Nat × List IRP)
  | 0, _, _ => none
  | _ + 1, [], n => some ([], n, [])
  | fuel + 1, pIrp :: rest, n =>
    let r := IoSetCancelRoutine pIrp false
    if r.2 then
      let pIrp1 := { r.1 with IoStatus := { Status := STATUS_CANCELLED, Information := 0 } }
      match DPT_CancelPendingReads.reads fuel rest (ulongDec n) with
      | none => none
      | some (q, m, done) => some (q, m, pIrp1 :: done)
    else DPT_CancelPendingReads.reads fuel (r.1 :: rest) n

/-- DPT_CancelPendingReads: the context afterwards and the IRPs completed, in order. -/
def DPT_CancelPendingReads (fuel : Nat) (pContext : SUBSCRIPTION_CONTEXT) :
    Option (SUBSCRIPTION_CONTEXT × List IRP) :=
  let m := DPT_CancelPendingReads.messages pContext.PendedMessages pContext.PendedMessagesCount
  match DPT_CancelPendingReads.reads fuel pContext.PendedReads pContext.PendedReadsCount with
  | none => none
  | some (q, n, done) =>
    some ({ pContext with
      PendedMessages := m.1, PendedMessagesCount := m.2,
      PendedReads := q, PendedReadsCount := n }, done)

/-! ## DPT_Read (lines 373-478) -/

structure READ_RESULT where
  State : DPT_STATE
  Irp : IRP
  Status : NTSTATUS
  Completed : Bool
deriving DecidableEq, Repr

/-- Lines 469-474: store the status; complete the IRP unless it is pending. -/
def DPT_Read.cleanup (pIrp : IRP) (Status : NTSTATUS) : IRP × Bool :=
  let pIrp1 := { pIrp with IoStatus := { pIrp.IoStatus with Status := Status } }
  if Status ≠ STATUS_PENDING then (pIrp1, true)
  else ({ pIrp1 with PendingReturned := true }, false)

/-- Lines 418-467, under the lock of the context; `mdl` is the non-NULL
`pIrp->MdlAddress`. The queue holds the IRP itself, so the entry appended carries
the stores of lines 470-474 as well. Line 442 computes `pBuffer` as the address
MmGetSystemAddressForMdlSafe returns plus `MdlAddress->ByteOffset`. -/
def DPT_Read.locked (L : SIZES) (pContext : SUBSCRIPTION_CONTEXT) (mdl : MDL) (pIrp : IRP) :
    SUBSCRIPTION_CONTEXT × IRP × NTSTATUS :=
  let pIrp1 := (IoSetCancelRoutine pIrp true).1
  let r := if pIrp1.Cancel then IoSetCancelRoutine pIrp1 false else (pIrp1, false)
  if pIrp1.Cancel && r.2 then (pContext, r.1, STATUS_CANCELLED)
  else
    match pContext.PendedMessages with
    | pMessage :: rest =>
      let pBuffer := mdl.MappedSystemVa + mdl.ByteOffset
      let BytesRemaining := mdl.ByteCount
      let BytesToCopy := min BytesRemaining L.PARSER_MESSAGE
      ({ pContext with
          PendedMessages := rest, PendedMessagesCount := ulongDec pContext.PendedMessagesCount },
       { r.1 with
          Data := some { Destination := pBuffer, Source := pMessage, Length := BytesToCopy },
          IoStatus := { r.1.IoStatus with Information := BytesToCopy } },
       STATUS_SUCCESS)
    | [] =>
      let pIrp2 := { r.1 with
        DriverContext0 := some pContext.Addr,
        IoStatus := { r.1.IoStatus with Information := 0 } }
      ({ pContext with
          PendedReads := pContext.PendedReads ++ [(DPT_Read.cleanup pIrp2 STATUS_PENDING).1],
          PendedReadsCount := ulongInc pContext.PendedReadsCount },
       pIrp2, STATUS_PENDING)

/-- DPT_Read; `FsContext` is `pIrpSp->FileObject->FsContext`. -/
def DPT_Read (L : SIZES) (s : DPT_STATE) (FsContext : Option Nat) (pIrp : IRP) :
    Option READ_RESULT :=
  let fail := fun (Status : NTSTATUS) =>
    some { State := s, Irp := (DPT_Read.cleanup pIrp Status).1, Status := Status,
           Completed := (DPT_Read.cleanup pIrp Status).2 : READ_RESULT }
  match FsContext with
  | none => fail STATUS_INVALID_HANDLE
  | some p =>
    match pIrp.MdlAddress with
    | none => fail STATUS_INVALID_PARAMETER
    | some mdl =>
      if mdl.ByteCount < L.PARSER_MESSAGE then fail STATUS_INVALID_BUFFER_SIZE
      else if !mdl.Mapped then fail STATUS_INSUFFICIENT_RESOURCES
      else
        match locate (fun c => decide (c.Addr = p)) s.DptSubscriptions with
        | none => none
        | some (before, pContext, after) =>
          match DPT_Read.locked L pContext mdl pIrp with
          | (c1, pIrp1, Status) =>
            some { State := { s with DptSubscriptions := before ++ c1 :: after },
                   Irp := (DPT_Read.cleanup pIrp1 Status).1, Status := Status,
                   Completed := (DPT_Read.cleanup pIrp1 Status).2 }

/-! ## DPT_Close (lines 496-524) -/

structure CLOSE_RESULT where
  State : DPT_STATE
  FsContext : Option Nat
  Status : NTSTATUS
  Information : Nat
  Completed : List IRP
deriving DecidableEq, Repr

/-- DPT_Close; `FsContext` is `pIrpSp->FileObject->FsContext`. -/
def DPT_Close (fuel : Nat) (s : DPT_STATE) (FsContext : Option Nat) : Option CLOSE_RESULT :=
  match FsContext with
  | none =>
    some { State := s, FsContext := none, Status := STATUS_SUCCESS, Information := 0,
           Completed := [] }
  | some p =>
    match locate (fun c => decide (c.Addr = p)) s.DptSubscriptions with
    | none => none
    | some (before, pContext, after) =>
      match DPT_CancelPendingReads fuel pContext with
      | none => none
      | some (_, done) =>
        some { State := { s with DptSubscriptions := before ++ after }, FsContext := none,
               Status := STATUS_SUCCESS, Information := 0, Completed := done }

/-! ## DPT_Control (lines 526-639) -/

/-- The control codes of the switch at line 534 (their values are in Dispatch.h). -/
inductive IOCTL where
  | VIRTUAL_DISK_SET_CIPHER
  | VIRTUAL_DISK_SET_LOGGER
  | VIRTUAL_DISK_GET_LOGGER
  | VIRTUAL_DISK_CREATE_SUBSCRIPTION
  | VIRTUAL_DISK_FINISH_REQUEST
  | OTHER (code : Nat)
deriving DecidableEq, Repr

structure EVHD_SET_CIPHER_CONFIG_REQUEST where
  DiskId : List Nat
  Algorithm : Nat
  Opts : List Nat
deriving DecidableEq, Repr

structure LOG_SETTINGS where
  Body : List Nat
deriving DecidableEq, Repr

structure CREATE_SUBSCRIPTION_REQUEST where
  Servicing : Bool
deriving DecidableEq, Repr

/-- The content of `AssociatedIrp.SystemBuffer` as seen through each of the casts
of DPT_Control. -/
structure SYSTEM_BUFFER where
  SetCipher : EVHD_SET_CIPHER_CONFIG_REQUEST
  LogSettings : LOG_SETTINGS
  CreateSubscription : CREATE_SUBSCRIPTION_REQUEST
  Response : PARSER_RESPONSE_MESSAGE
deriving DecidableEq, Repr

structure CONTROL_IRP where
  IoControlCode : IOCTL
  InputBufferLength : Nat
  OutputBufferLength : Nat
  SystemBuffer : SYSTEM_BUFFER
  FileObject : Nat
  FsContext : Option Nat
deriving DecidableEq, Repr

/-- The routines of cipher.h and Log.h, as the status they return (and, for the
query, the settings they store). -/
structure COLLABORATORS where
  SetCipherOpts : List Nat → Nat → List Nat → NTSTATUS
  Log_SetSetting : LOG_SETTINGS → NTSTATUS
  Log_QueryLogSettings : NTSTATUS × LOG_SETTINGS

/-- A call that DPT_Control forwarded to a collaborator. -/
inductive FORWARDED where
  | SetCipherOpts (request : EVHD_SET_CIPHER_CONFIG_REQUEST)
  | Log_SetSetting (settings : LOG_SETTINGS)
  | Log_QueryLogSettings
deriving DecidableEq, Repr

structure CONTROL_RESULT where
  State : DPT_STATE
  FsContext : Option Nat
  Status : NTSTATUS
  Information : Nat
  Forwarded : List FORWARDED
  Stored : Option LOG_SETTINGS
deriving DecidableEq, Repr

/-- DPT_Control. `pool` is what ExAllocatePoolWithTag returns at line 585. -/
def DPT_Control (L : SIZES) (X : COLLABORATORS) (s : DPT_STATE) (pIrp : CONTROL_IRP)
    (pool : Option Nat) : Option CONTROL_RESULT :=
  let leave := fun (Status : NTSTATUS) =>
    some { State := s, FsContext := pIrp.FsContext, Status := Status, Information := 0,
           Forwarded := [], Stored := none : CONTROL_RESULT }
  match pIrp.IoControlCode with
  | .VIRTUAL_DISK_SET_CIPHER =>
    if L.EVHD_SET_CIPHER_CONFIG_REQUEST ≠ pIrp.InputBufferLength then
      leave STATUS_INVALID_BUFFER_SIZE
    else
      let request := pIrp.SystemBuffer.SetCipher
      some { State := s, FsContext := pIrp.FsContext,
             Status := X.SetCipherOpts request.DiskId request.Algorithm request.Opts,
             Information := 0, Forwarded := [.SetCipherOpts request], Stored := none }
  | .VIRTUAL_DISK_SET_LOGGER =>
    if L.LOG_SETTINGS ≠ pIrp.InputBufferLength ∨ 0 ≠ pIrp.OutputBufferLength then
      leave STATUS_INVALID_BUFFER_SIZE
    else
      some { State := s, FsContext := pIrp.FsContext,
             Status := X.Log_SetSetting pIrp.SystemBuffer.LogSettings,
             Information := 0, Forwarded := [.Log_SetSetting pIrp.SystemBuffer.LogSettings],
             Stored := none }
  | .VIRTUAL_DISK_GET_LOGGER =>
    if 0 ≠ pIrp.InputBufferLength ∨ L.LOG_SETTINGS ≠ pIrp.OutputBufferLength then
      leave STATUS_INVALID_BUFFER_SIZE
    else
      let Status := X.Log_QueryLogSettings.1
      some { State := s, FsContext := pIrp.FsContext, Status := Status,
             Information := if NT_SUCCESS Status then L.LOG_SETTINGS else 0,
             Forwarded := [.Log_QueryLogSettings], Stored := some X.Log_QueryLogSettings.2 }
  | .VIRTUAL_DISK_CREATE_SUBSCRIPTION =>
    if L.CREATE_SUBSCRIPTION_REQUEST ≠ pIrp.InputBufferLength ∨ 0 ≠ pIrp.OutputBufferLength then
      leave STATUS_INVALID_BUFFER_SIZE
    else
      match pIrp.FsContext with
      | some _ => leave STATUS_PIPE_LISTENING
      | none =>
        match pool with
        | none => leave STATUS_INSUFFICIENT_RESOURCES
        | some p =>
          let pContext : SUBSCRIPTION_CONTEXT :=
            { Addr := p, pFileObject := pIrp.FileObject, PendedReads := [],
              PendedReadsCount := 0, PendedMessages := [], PendedMessagesCount := 0,
              ServicingContext := pIrp.SystemBuffer.CreateSubscription.Servicing }
          some { State := { s with DptSubscriptions := s.DptSubscriptions ++ [pContext] },
                 FsContext := some p, Status := STATUS_SUCCESS, Information := 0,
                 Forwarded := [], Stored := none }
  | .VIRTUAL_DISK_FINISH_REQUEST =>
    if L.PARSER_RESPONSE_MESSAGE ≠ pIrp.InputBufferLength ∨ 0 ≠ pIrp.OutputBufferLength then
      leave STATUS_INVALID_BUFFER_SIZE
    else
      let pResponse := pIrp.SystemBuffer.Response
      match DPT_FindRequestNoLock s.DptRequests pResponse.RequestId with
      | some (before, pRequest, after) =>
        match pRequest.pResponse with
        | none => none
        | some _ =>
          let pRequest1 := { pRequest with pResponse := some pResponse, Event := true }
          some { State := { s with DptRequests := before ++ pRequest1 :: after },
                 FsContext := pIrp.FsContext, Status := STATUS_SUCCESS, Information := 0,
                 Forwarded := [], Stored := none }
      | none => leave STATUS_INVALID_DEVICE_REQUEST
  | .OTHER _ => leave STATUS_INVALID_DEVICE_REQUEST

/-! ## Predicates used by the statements -/

/-- A read that passes the validation of DPT_Read (lines 397-416): an MDL is
present, it describes at least `sizeof(PARSER_MESSAGE)` bytes and it can be mapped. -/
def ValidRead (L : SIZES) (pIrp : IRP) : Bool :=
  match pIrp.MdlAddress with
  | none => false
  | some mdl => mdl.Mapped && decide (L.PARSER_MESSAGE ≤ mdl.ByteCount)

/-- Every pended read of the context passed the validation of DPT_Read. -/
def QueueValid (L : SIZES) (c : SUBSCRIPTION_CONTEXT) : Prop :=
  ∀ x ∈ c.PendedReads, ValidRead L x = true

/-- Every pended read of every registered context passed the validation. -/
def RegistryValid (L : SIZES) (s : DPT_STATE) : Prop :=
  ∀ c ∈ s.DptSubscriptions, QueueValid L c

/-- The context at address `p` in a list of contexts. -/
def contextAt (p : Nat) (subs : List SUBSCRIPTION_CONTEXT) : Option SUBSCRIPTION_CONTEXT :=
  match locate (fun c => decide (c.Addr = p)) subs with
  | none => none
  | some (_, c, _) => some c

/-- The registered context a file object refers to through `FsContext = p`. -/
def subscriber (p : Nat) (s : DPT_STATE) : Option SUBSCRIPTION_CONTEXT :=
  contextAt p s.DptSubscriptions

/-- The address the read path copies to for this IRP (`pBuffer` of lines 442 and
685): the system address of the MDL plus its `ByteOffset`; 0 without an MDL. -/
def IRP.pBuffer (pIrp : IRP) : Nat :=
  match pIrp.MdlAddress with
  | none => 0
  | some mdl => mdl.MappedSystemVa + mdl.ByteOffset

/-- The outcome "delivered": the oldest pended read whose cancel routine was still
set left the queue and was completed with success and the whole message, copied
to `pBuffer`; nothing else of the context changed. -/
def Delivered (L : SIZES) (m : PARSER_MESSAGE) (c c1 : SUBSCRIPTION_CONTEXT)
    (done : List IRP) : Prop :=
  ∃ a x b, c.PendedReads = a ++ x :: b ∧ (∀ y ∈ a, y.CancelRoutine = false) ∧
    x.CancelRoutine = true ∧
    c1 = { c with PendedReads := a ++ b, PendedReadsCount := ulongDec c.PendedReadsCount } ∧
    done = [{ x with
      CancelRoutine := false,
      Data := some { Destination := x.pBuffer, Source := m, Length := L.PARSER_MESSAGE },
      IoStatus := { Status := STATUS_SUCCESS, Information := L.PARSER_MESSAGE } }]

/-- The outcome "queued": no pended read had its cancel routine set, one copy of
the message was appended to PendedMessages, nothing was completed and nothing else
of the context changed. -/
def Queued (m : PARSER_MESSAGE) (c c1 : SUBSCRIPTION_CONTEXT) (done : List IRP) : Prop :=
  (∀ y ∈ c.PendedReads, y.CancelRoutine = false) ∧
  c1 = { c with
    PendedMessages := c.PendedMessages ++ [m],
    PendedMessagesCount := ulongInc c.PendedMessagesCount } ∧
  done = []

/-- A context whose two queues are not both non-empty. -/
def Exclusive (c : SUBSCRIPTION_CONTEXT) : Prop :=
  c.PendedReads = [] ∨ c.PendedMessages = []

/-- Every pended read of the context still has its cancel routine set: no
cancellation is under way. -/
def Armed (c : SUBSCRIPTION_CONTEXT) : Prop :=
  ∀ x ∈ c.PendedReads, x.CancelRoutine = true

/-- Every context of the list is exclusive and armed. -/
def Quiet (subs : List SUBSCRIPTION_CONTEXT) : Prop :=
  ∀ c ∈ subs, Exclusive c ∧ Armed c

/-- One completed step of the dispatch core: a control request (CreateSubscription,
FinishRequest and the forwarded ones), a read, a broadcast, the dispatch part of a
synchronous request, the return of a synchronous request (its entry is unlinked), a
cancellation of a pended read, a teardown of a registered context, a close. -/
inductive Step (L : SIZES) (X : COLLABORATORS) : DPT_STATE → DPT_STATE → Prop where
  | control (s : DPT_STATE) (pIrp : CONTROL_IRP) (pool : Option Nat) (k : CONTROL_RESULT) :
      DPT_Control L X s pIrp pool = some k → Step L X s k.State
  | read (s : DPT_STATE) (FsContext : Option Nat) (pIrp : IRP) (r : READ_RESULT) :
      DPT_Read L s FsContext pIrp = some r → Step L X s r.State
  | publish (s : DPT_STATE) (m : PARSER_MESSAGE) (s1 : DPT_STATE) (done : List IRP) :
      DPT_QueueMessage L s m = some (s1, done) → Step L X s s1
  | dispatch (s : DPT_STATE) (pRequest : PARSER_MESSAGE)
      (pResponse : Option PARSER_RESPONSE_MESSAGE) (TimeoutMs pEntry : Nat) (SystemTime : Int)
      (s1 : DPT_STATE) (req : PARSER_MESSAGE) (t : Int) (done : List IRP) :
      DPT_SynchronouseRequest.issue L s pRequest pResponse TimeoutMs pEntry SystemTime
        = some (some (s1, req, t, done)) → Step L X s s1
  | callReturn (s : DPT_STATE) (pEntry : Nat) (a : List REQUEST_ENTRY) (e : REQUEST_ENTRY)
      (b : List REQUEST_ENTRY) :
      locate (fun e => decide (e.Addr = pEntry)) s.DptRequests = some (a, e, b) →
      Step L X s { s with DptRequests := a ++ b }
  | cancel (s : DPT_STATE) (pIrp : IRP) (s1 : DPT_STATE) (pIrp1 : IRP) :
      DPT_ReadCancel s pIrp = some (s1, pIrp1) → Step L X s s1
  | teardown (s : DPT_STATE) (fuel p : Nat) (a : List SUBSCRIPTION_CONTEXT)
      (c : SUBSCRIPTION_CONTEXT) (b : List SUBSCRIPTION_CONTEXT) (c1 : SUBSCRIPTION_CONTEXT)
      (done : List IRP) :
      locate (fun c => decide (c.Addr = p)) s.DptSubscriptions = some (a, c, b) →
      DPT_CancelPendingReads fuel c = some (c1, done) →
      Step L X s { s with DptSubscriptions := a ++ c1 :: b }
  | close (s : DPT_STATE) (fuel : Nat) (FsContext : Option Nat) (r : CLOSE_RESULT) :
      DPT_Close fuel s FsContext = some r → Step L X s r.State

/-- The states reached from the empty registry by completed steps. -/
inductive Reachable (L : SIZES) (X : COLLABORATORS) : DPT_STATE → Prop where
  | empty : Reachable L X { DptSubscriptions := [], DptRequests := [], DptRequestCounter := 0 }
  | step (s s1 : DPT_STATE) : Reachable L X s → Step L X s s1 → Reachable L X s1

/-- A sequence of DPT_QueueMessage calls, in order. -/
def publishAll (L : SIZES) : DPT_STATE → List PARSER_MESSAGE → Option (DPT_STATE × List IRP)
  | s, [] => some (s, [])
  | s, m :: rest =>
    match DPT_QueueMessage L s m with
    | none => none
    | some (s1, done) =>
      match publishAll L s1 rest with
      | none => none
      | some (s2, done2) => some (s2, done ++ done2)

/-- A sequence of DPT_Read calls on the file object whose FsContext is `p`. -/
def readAll (L : SIZES) (p : Nat) : DPT_STATE → List IRP → Option (DPT_STATE × List READ_RESULT)
  | s, [] => some (s, [])
  | s, pIrp :: rest =>
    match DPT_Read L s (some p) pIrp with
    | none => none
    | some r =>
      match readAll L p r.State rest with
      | none => none
      | some (s2, rs) => some (s2, r :: rs)

/-- All completions of a broadcast, subscriber after subscriber. -/
def completions (outs : List (SUBSCRIPTION_CONTEXT × List IRP)) : List IRP :=
  match outs with
  | [] => []
  | o :: rest => o.2 ++ completions rest

/-- A control IRP carrying IOCTL_VIRTUAL_DISK_FINISH_REQUEST with exact buffer sizes. -/
def FinishRequest (L : SIZES) (pResponse : PARSER_RESPONSE_MESSAGE) : CONTROL_IRP :=
  { IoControlCode := .VIRTUAL_DISK_FINISH_REQUEST,
    InputBufferLength := L.PARSER_RESPONSE_MESSAGE, OutputBufferLength := 0,
    SystemBuffer :=
      { SetCipher := { DiskId := [], Algorithm := 0, Opts := [] }, LogSettings := { Body := [] },
        CreateSubscription := { Servicing := false }, Response := pResponse },
    FileObject := 0, FsContext := none }

/-- A control IRP carrying IOCTL_VIRTUAL_DISK_CREATE_SUBSCRIPTION with exact buffer
sizes, on the file object `FileObject` whose FsContext is `FsContext`. -/
def CreateSubscription (L : SIZES) (Servicing : Bool) (FileObject : Nat)
    (FsContext : Option Nat) : CONTROL_IRP :=
  { IoControlCode := .VIRTUAL_DISK_CREATE_SUBSCRIPTION,
    InputBufferLength := L.CREATE_SUBSCRIPTION_REQUEST, OutputBufferLength := 0,
    SystemBuffer :=
      { SetCipher := { DiskId := [], Algorithm := 0, Opts := [] }, LogSettings := { Body := [] },
        CreateSubscription := { Servicing := Servicing },
        Response := { RequestId := 0, Body := [] } },
    FileObject := FileObject, FsContext := FsContext }

/-- The environment in which, while the caller of DPT_SynchronouseRequest is blocked,
one thread issues FinishRequest with the response `r`. -/
def finishing (L : SIZES) (X : COLLABORATORS) (r : PARSER_RESPONSE_MESSAGE) :
    DPT_STATE → Option DPT_STATE := fun s =>
  match DPT_Control L X s (FinishRequest L r) none with
  | none => none
  | some k => some k.State

/-- Collaborators that accept everything. -/
def idleCollaborators : COLLABORATORS :=
  { SetCipherOpts := fun _ _ _ => STATUS_SUCCESS, Log_SetSetting := fun _ => STATUS_SUCCESS,
    Log_QueryLogSettings := (STATUS_SUCCESS, { Body := [] }) }

/-! ## A cancellation racing with delivery and teardown

The routines run on several processors. What each does to the queues it does under
the lock of the context, and the exchange of the cancel routine is interlocked, so an
execution is a sequence of the events below. The read followed is the IRP at address
`q`, pended on the context at address `p`. -/

/-- The dispatch state with what is observable from outside. `Completed` holds the
IoCompleteRequest calls in order. `CallPending` is set while the I/O manager has
taken DPT_ReadCancel out of the IRP at `q` and not called it yet. -/
structure WORLD where
  State : DPT_STATE
  Completed : List IRP
  CallPending : Bool
deriving DecidableEq, Repr

/-- The steps of an execution. `take` and `call` are the two halves of the I/O
manager cancelling the IRP at `q`: it sets Cancel and exchanges the cancel routine for
NULL, then calls the routine it got, DPT_ReadCancel. `send` is DPT_QueueMessage.
`drain` is lines 321-331 of DPT_CancelPendingReads on the context at `p` and `pass` is
one turn of its loop of lines 334-366. -/
inductive EVENT where
  | take
  | call
  | send (pMessage : PARSER_MESSAGE)
  | drain
  | pass
deriving DecidableEq, Repr

/-- One test of the loop condition of lines 334-366 and the iteration it lets in:
the queue and count afterwards and the IRP completed, if any. An IRP whose cancel
routine is taken stays at the head while the routine delays. -/
def DPT_CancelPendingReads.pass : List IRP → Nat → List IRP × Nat × List IRP
  | [], n => ([], n, [])
  | pIrp :: rest, n =>
    let r := IoSetCancelRoutine pIrp false
    if r.2 then
      (rest, ulongDec n,
        [{ r.1 with IoStatus := { Status := STATUS_CANCELLED, Information := 0 } }])
    else (r.1 :: rest, n, [])

/-- The pended reads of the context at `p`. -/
def pendedReads (p : Nat) (w : WORLD) : List IRP :=
  match subscriber p w.State with
  | none => []
  | some c => c.PendedReads

/-- The IRP at `q` as the I/O manager finds it: in the queue of the context at `p`
or, once it has left the queue, as it was completed. -/
def irpAt (p q : Nat) (w : WORLD) : Option IRP :=
  match locate (fun x => decide (x.Addr = q)) (pendedReads p w) with
  | some (_, x, _) => some x
  | none => w.Completed.find? (fun x => decide (x.Addr = q))

/-- One event. -/
def step (L : SIZES) (p q : Nat) (w : WORLD) : EVENT → Option WORLD
  | .take =>
    match locate (fun c => decide (c.Addr = p)) w.State.DptSubscriptions with
    | none => none
    | some (A, c, B) =>
      match locate (fun x => decide (x.Addr = q)) c.PendedReads with
      | some (a, x, b) =>
        let r := IoSetCancelRoutine { x with Cancel := true } false
        some { w with
          State := { w.State with
            DptSubscriptions := A ++ { c with PendedReads := a ++ r.1 :: b } :: B },
          CallPending := w.CallPending || r.2 }
      | none =>
        match w.Completed.find? (fun x => decide (x.Addr = q)) with
        | none => none
        | some y =>
          some { w with
            CallPending :=
              w.CallPending || (IoSetCancelRoutine { y with Cancel := true } false).2 }
  | .call =>
    if w.CallPending then
      match irpAt p q w with
      | none => none
      | some x =>
        match DPT_ReadCancel w.State x with
        | none => none
        | some (s1, x1) =>
          some { State := s1, Completed := w.Completed ++ [x1], CallPending := false }
    else some w
  | .send pMessage =>
    match DPT_QueueMessage L w.State pMessage with
    | none => none
    | some (s1, done) => some { w with State := s1, Completed := w.Completed ++ done }
  | .drain =>
    match locate (fun c => decide (c.Addr = p)) w.State.DptSubscriptions with
    | none => none
    | some (A, c, B) =>
      let m := DPT_CancelPendingReads.messages c.PendedMessages c.PendedMessagesCount
      some { w with
        State := { w.State with
          DptSubscriptions :=
            A ++ { c with PendedMessages := m.1, PendedMessagesCount := m.2 } :: B } }
  | .pass =>
    match locate (fun c => decide (c.Addr = p)) w.State.DptSubscriptions with
    | none => none
    | some (A, c, B) =>
      let r := DPT_CancelPendingReads.pass c.PendedReads c.PendedReadsCount
      some { w with
        State := { w.State with
          DptSubscriptions :=
            A ++ { c with PendedReads := r.1, PendedReadsCount := r.2.1 } :: B },
        Completed := w.Completed ++ r.2.2 }

/-- A sequence of events, in order. -/
def run (L : SIZES) (p q : Nat) : WORLD → List EVENT → Option WORLD
  | w, [] => some w
  | w, e :: rest =>
    match step L p q w e with
    | none => none
    | some w1 => run L p q w1 rest

/-- The read at `q` is pending on the context at `p` as DPT_Read leaves it: it is in
the queue of that context once and in no other queue, its cancel routine is set, it
is not cancelled, `DriverContext[0]` points to the context, no completion of it has
been seen and the I/O manager has not touched it; all pended reads are valid. -/
def Pending (L : SIZES) (p q : Nat) (w : WORLD) : Prop :=
  RegistryValid L w.State ∧ w.CallPending = false ∧ (∀ x ∈ w.Completed, x.Addr ≠ q) ∧
  ∃ A c B a x b, w.State.DptSubscriptions = A ++ c :: B ∧ c.Addr = p ∧
    (∀ y ∈ A, y.Addr ≠ p) ∧ (∀ y ∈ A ++ B, ∀ z ∈ y.PendedReads, z.Addr ≠ q) ∧
    c.PendedReads = a ++ x :: b ∧ (∀ z ∈ a ++ b, z.Addr ≠ q) ∧
    x.Addr = q ∧ x.CancelRoutine = true ∧ x.Cancel = false ∧ x.DriverContext0 = some p

def sizes0 : SIZES :=
  { PARSER_MESSAGE := 16, PARSER_RESPONSE_MESSAGE := 8, LOG_SETTINGS := 4,
    CREATE_SUBSCRIPTION_REQUEST := 1, EVHD_SET_CIPHER_CONFIG_REQUEST := 32 }

def irp0 (addr : Nat) : IRP :=
  { Addr := addr,
    MdlAddress := some { ByteCount := 16, ByteOffset := 24, Mapped := true,
                         MappedSystemVa := 4096 },
    Cancel := false, CancelRoutine := false, IoStatus := { Status := 0, Information := 0 },
    DriverContext0 := none, PendingReturned := false, Data := none }

def ctx0 (addr : Nat) (servicing : Bool) : SUBSCRIPTION_CONTEXT :=
  { Addr := addr, pFileObject := addr, PendedReads := [], PendedReadsCount := 0,
    PendedMessages := [], PendedMessagesCount := 0, ServicingContext := servicing }

def msg0 (n : Nat) : PARSER_MESSAGE := { RequestId := 0, Body := [n] }

/-- One servicing subscriber, no request in flight. -/
def state0 : DPT_STATE :=
  { DptSubscriptions := [ctx0 100 true], DptRequests := [], DptRequestCounter := 0 }

/-- One subscriber that does not service requests. -/
def state1 : DPT_STATE :=
  { DptSubscriptions := [ctx0 100 false], DptRequests := [], DptRequestCounter := 0 }

def resp0 (id : Int) : PARSER_RESPONSE_MESSAGE := { RequestId := id, Body := [1, 2, 3] }

def entry0 (addr : Nat) (id : Int) : REQUEST_ENTRY :=
  { Addr := addr, RequestId := id, Event := false, StartTime := 0,
    pResponse := some { RequestId := 0, Body := [] } }

/-- The environment in which nothing happens while the caller is blocked. -/
def nobody : DPT_STATE → Option DPT_STATE := fun s => some s

/-- A context with two pended messages and two armed pended reads. -/
def ctx1 : SUBSCRIPTION_CONTEXT :=
  { Addr := 100, pFileObject := 100,
    PendedReads := [{ irp0 1 with CancelRoutine := true }, { irp0 2 with CancelRoutine := true }],
    PendedReadsCount := 2, PendedMessages := [msg0 1, msg0 2], PendedMessagesCount := 2,
    ServicingContext := false }

/-- A pended read whose cancel routine is still set. -/
def armed (addr : Nat) : IRP := { irp0 addr with CancelRoutine := true }

/-- A context with a pended read whose cancel routine is taken, then two armed ones. -/
def ctx2 : SUBSCRIPTION_CONTEXT :=
  { ctx0 100 false with PendedReads := [irp0 1, armed 2, armed 3], PendedReadsCount := 3 }

/-- Two subscribers: `ctx2` and one that has nothing pended. -/
def state2 : DPT_STATE :=
  { DptSubscriptions := [ctx2, ctx0 200 true], DptRequests := [], DptRequestCounter := 0 }

/-- An untouched response buffer. -/
def blank : PARSER_RESPONSE_MESSAGE := { RequestId := 0, Body := [] }

/-- One servicing subscriber; a request with RequestId 1 is still registered while
the counter stands at 0 again. -/
def state3 : DPT_STATE :=
  { DptSubscriptions := [ctx0 100 true], DptRequests := [entry0 400 1], DptRequestCounter := 0 }

/-- A read whose buffer is smaller than the message of `sizes0`. -/
def smallIrp : IRP :=
  { irp0 9 with
    MdlAddress := some { ByteCount := 15, ByteOffset := 0, Mapped := true,
                         MappedSystemVa := 4096 } }

/-- A SET_CIPHER request with the exact input length and a non-empty output buffer. -/
def cipherIrp : CONTROL_IRP :=
  { IoControlCode := .VIRTUAL_DISK_SET_CIPHER,
    InputBufferLength := sizes0.EVHD_SET_CIPHER_CONFIG_REQUEST, OutputBufferLength := 4,
    SystemBuffer :=
      { SetCipher := { DiskId := [1], Algorithm := 2, Opts := [3] }, LogSettings := { Body := [] },
        CreateSubscription := { Servicing := false },
        Response := { RequestId := 0, Body := [] } },
    FileObject := 7, FsContext := none }

/-- One subscriber with one pended message. -/
def state4 : DPT_STATE :=
  { DptSubscriptions :=
      [{ ctx0 100 false with PendedMessages := [msg0 1], PendedMessagesCount := 1 }],
    DptRequests := [], DptRequestCounter := 0 }

/-- A context with two armed pended reads and no pended message. -/
def ctx3 : SUBSCRIPTION_CONTEXT :=
  { ctx0 100 false with PendedReads := [armed 2, armed 3], PendedReadsCount := 2 }

/-- Two subscribers: `ctx3` and a servicing one with nothing pended. -/
def state5 : DPT_STATE :=
  { DptSubscriptions := [ctx3, ctx0 200 true], DptRequests := [], DptRequestCounter := 0 }

/-- One servicing subscriber, requests 3 and 5 in flight, the counter at 5. -/
def state7 : DPT_STATE :=
  { DptSubscriptions := [ctx0 100 true], DptRequests := [entry0 400 3, entry0 401 5],
    DptRequestCounter := 5 }

/-- The registry after one CreateSubscription at address 300 and one broadcast. -/
def state8 : DPT_STATE :=
  { DptSubscriptions :=
      [{ ctx0 300 false with
          pFileObject := 7, PendedMessages := [msg0 1], PendedMessagesCount := 1 }],
    DptRequests := [], DptRequestCounter := 0 }

/-- The read `irp0 1` as DPT_Read leaves it in a queue of the context at 300. -/
def pended9 : IRP :=
  { irp0 1 with
    CancelRoutine := true, DriverContext0 := some 300, PendingReturned := true,
    IoStatus := { Status := STATUS_PENDING, Information := 0 } }

/-- The context at 300 holding the pended read `pended9`. -/
def ctx9 : SUBSCRIPTION_CONTEXT :=
  { ctx0 300 false with pFileObject := 7, PendedReads := [pended9], PendedReadsCount := 1 }

/-- The registry after one CreateSubscription at address 300 and one DPT_Read. -/
def state9 : DPT_STATE :=
  { DptSubscriptions := [ctx9], DptRequests := [], DptRequestCounter := 0 }

/-- Two subscribers: the context at 300 holds the pended read `pended9`, the context
at 301 holds one pended message. -/
def state10 : DPT_STATE :=
  { DptSubscriptions :=
      [ctx9,
       { ctx0 301 false with
          pFileObject := 8, PendedMessages := [msg0 1], PendedMessagesCount := 1 }],
    DptRequests := [], DptRequestCounter := 0 }

/-- The registry `state9` with nothing completed and no cancellation under way. -/
def world9 : WORLD := { State := state9, Completed := [], CallPending := false }

/-! ## The list pointer -/

theorem locate_eq_none {α : Type} (p : α → Bool) (l : List α)
    (h : ∀ x ∈ l, p x = false) : locate p l = none := by
  induction l with
  | nil => rfl
  | cons x rest ih =>
    have hx : p x = false := h x (List.mem_cons_self _ _)
    have hr : locate p rest = none := ih (fun y hy => h y (List.mem_cons_of_mem _ hy))
    simp [locate, hx, hr]

theorem locate_append {α : Type} (p : α → Bool) (a : List α) (x : α) (b : List α)
    (ha : ∀ y ∈ a, p y = false) (hx : p x = true) :
    locate p (a ++ x :: b) = some (a, x, b) := by
  induction a with
  | nil => simp [locate, hx]
  | cons y rest ih =>
    have hy : p y = false := ha y (List.mem_cons_self _ _)
    have hr := ih (fun z hz => ha z (List.mem_cons_of_mem _ hz))
    simp [locate, hy, hr]

theorem locate_some {α : Type} (p : α → Bool) (l a b : List α) (x : α)
    (h : locate p l = some (a, x, b)) :
    l = a ++ x :: b ∧ p x = true ∧ ∀ y ∈ a, p y = false := by
  induction l generalizing a with
  | nil => simp [locate] at h
  | cons y rest ih =>
    by_cases hy : p y = true
    · simp [locate, hy] at h
      obtain ⟨h1, h2, h3⟩ := h
      subst h1 h2 h3
      simp [hy]
    · have hy2 : p y = false := by simpa using hy
      cases hr : locate p rest with
      | none => simp [locate, hy2, hr] at h
      | some z =>
        obtain ⟨a2, x2, b2⟩ := z
        simp [locate, hy2, hr] at h
        obtain ⟨h1, h2, h3⟩ := h
        subst h1 h2 h3
        obtain ⟨e1, e2, e3⟩ := ih a2 hr
        refine ⟨by rw [e1]; rfl, e2, ?_⟩
        intro z hz
        rcases List.mem_cons.mp hz with rfl | hz2
        · exact hy2
        · exact e3 z hz2

theorem locate_of_mem {α : Type} (p : α → Bool) (l : List α)
    (h : ∃ x ∈ l, p x = true) : ∃ a x b, locate p l = some (a, x, b) := by
  cases hl : locate p l with
  | some z => exact ⟨z.1, z.2.1, z.2.2, rfl⟩
  | none =>
    exfalso
    obtain ⟨x, hx, hpx⟩ := h
    induction l with
    | nil => simp at hx
    | cons y rest ih =>
      by_cases hy : p y = true
      · simp [locate, hy] at hl
      · have hy2 : p y = false := by simpa using hy
        cases hr : locate p rest with
        | some z => simp [locate, hy2, hr] at hl
        | none =>
          rcases List.mem_cons.mp hx with rfl | hx2
          · exact hy hpx
          · exact ih hr hx2

/-! ## DPT_SynchronouseRequest without a servicing subscriber -/

/-- C6 (no servicer): when no registered context has ServicingContext set, the empty
registry included, DPT_SynchronouseRequest returns FALSE without handing anything to
the wait primitive, and the dispatch state (request counter, request table, every
subscriber's queues), the request with its RequestId and the response buffer are
unchanged. -/
theorem DPT_SynchronouseRequest_no_servicer (L : SIZES) (s : DPT_STATE)
    (pRequest : PARSER_MESSAGE) (pResponse : Option PARSER_RESPONSE_MESSAGE)
    (TimeoutMs pEntry : Nat) (SystemTime : Int) (during : DPT_STATE → Option DPT_STATE)
    (h : ∀ c ∈ s.DptSubscriptions, c.ServicingContext = false) :
    ∃ r, DPT_SynchronouseRequest L s pRequest pResponse TimeoutMs pEntry SystemTime during
          = some r ∧
      r.Result = false ∧ r.Timeout = none ∧ r.WaitStatus = none ∧ r.State = s ∧
      r.Request = pRequest ∧ r.Response = pResponse ∧ r.Completed = [] := by
  have hl : locate (fun c => c.ServicingContext) s.DptSubscriptions = none :=
    locate_eq_none _ _ h
  have he : DPT_SynchronouseRequest L s pRequest pResponse TimeoutMs pEntry SystemTime during
      = some { State := s, Request := pRequest, Response := pResponse, Result := false,
               Timeout := none, WaitStatus := none, Completed := [] } := by
    simp [DPT_SynchronouseRequest, DPT_SynchronouseRequest.issue, hl]
  exact ⟨_, he, rfl, rfl, rfl, rfl, rfl, rfl, rfl⟩

theorem DPT_SynchronouseRequest_no_servicer_witness :
    (∀ c ∈ state1.DptSubscriptions, c.ServicingContext = false) ∧
    ∃ r, DPT_SynchronouseRequest sizes0 state1 (msg0 7) (some (resp0 0)) 10 500 0 nobody
          = some r ∧
      r.Result = false ∧ r.Timeout = none ∧ r.WaitStatus = none ∧ r.State = state1 ∧
      r.Request = msg0 7 ∧ r.Response = some (resp0 0) ∧ r.Completed = [] :=
  ⟨by decide,
   DPT_SynchronouseRequest_no_servicer sizes0 state1 (msg0 7) (some (resp0 0)) 10 500 0 nobody
     (by decide)⟩

/-! ## The result of DPT_SynchronouseRequest after a wait -/

/-- Whenever DPT_SynchronouseRequest waited, it returns TRUE: both statuses of the
wait satisfy NT_SUCCESS. -/
theorem DPT_SynchronouseRequest_result_of_wait (L : SIZES) (s : DPT_STATE)
    (pRequest : PARSER_MESSAGE) (pResponse : Option PARSER_RESPONSE_MESSAGE)
    (TimeoutMs pEntry : Nat) (SystemTime : Int) (during : DPT_STATE → Option DPT_STATE)
    (r : CALL_RESULT) (Status : NTSTATUS)
    (h : DPT_SynchronouseRequest L s pRequest pResponse TimeoutMs pEntry SystemTime during
          = some r)
    (hw : r.WaitStatus = some Status) : r.Result = true := by
  unfold DPT_SynchronouseRequest at h
  split at h
  · simp at h
  · simp at h; subst h; simp at hw
  · split at h
    · simp at h
    · split at h
      · simp at h
      · simp at h
        subst h
        simp only [KeWaitForSingleObject, NT_SUCCESS]
        split <;> simp [STATUS_SUCCESS, STATUS_TIMEOUT]

/-- C3 (call result), evaluated where the code departs from it: one servicing
subscriber, nothing signals the event, the wait ends with STATUS_TIMEOUT, and
DPT_SynchronouseRequest still returns TRUE. -/
theorem DPT_SynchronouseRequest_timeout_returns_true :
    ∃ r, DPT_SynchronouseRequest sizes0 state0 (msg0 7) (some (resp0 0)) 10 500 0 nobody
          = some r ∧
      r.WaitStatus = some STATUS_TIMEOUT ∧ r.Result = true := by
  refine ⟨_, rfl, ?_, ?_⟩ <;> decide

/-! ## FinishRequest with an unknown RequestId -/

/-- C5 (stale response): IOCTL_VIRTUAL_DISK_FINISH_REQUEST with exact buffer sizes
and a RequestId that no entry of DptRequests carries fails with
STATUS_INVALID_DEVICE_REQUEST and leaves the dispatch state as it was: the request
table with its response buffers and events, the registry and every queue. -/
theorem DPT_Control_finish_unknown_request (L : SIZES) (X : COLLABORATORS) (s : DPT_STATE)
    (pIrp : CONTROL_IRP) (pool : Option Nat)
    (hcode : pIrp.IoControlCode = IOCTL.VIRTUAL_DISK_FINISH_REQUEST)
    (hin : pIrp.InputBufferLength = L.PARSER_RESPONSE_MESSAGE)
    (hout : pIrp.OutputBufferLength = 0)
    (hstale : ∀ e ∈ s.DptRequests, e.RequestId ≠ pIrp.SystemBuffer.Response.RequestId) :
    ∃ r, DPT_Control L X s pIrp pool = some r ∧
      r.Status = STATUS_INVALID_DEVICE_REQUEST ∧ r.State = s ∧
      r.FsContext = pIrp.FsContext ∧ r.Information = 0 ∧ r.Forwarded = [] ∧
      r.Stored = none := by
  have hl : DPT_FindRequestNoLock s.DptRequests pIrp.SystemBuffer.Response.RequestId = none := by
    unfold DPT_FindRequestNoLock
    apply locate_eq_none
    intro e he
    simpa using hstale e he
  have he : DPT_Control L X s pIrp pool
      = some { State := s, FsContext := pIrp.FsContext,
               Status := STATUS_INVALID_DEVICE_REQUEST, Information := 0, Forwarded := [],
               Stored := none } := by
    simp [DPT_Control, hcode, hin, hout, hl]
  exact ⟨_, he, rfl, rfl, rfl, rfl, rfl, rfl⟩

theorem DPT_Control_finish_unknown_request_witness :
    (FinishRequest sizes0 (resp0 9)).IoControlCode = IOCTL.VIRTUAL_DISK_FINISH_REQUEST ∧
    (FinishRequest sizes0 (resp0 9)).InputBufferLength = sizes0.PARSER_RESPONSE_MESSAGE ∧
    (FinishRequest sizes0 (resp0 9)).OutputBufferLength = 0 ∧
    (∀ e ∈ ({ state0 with DptRequests := [entry0 500 1] } : DPT_STATE).DptRequests,
      e.RequestId ≠ (FinishRequest sizes0 (resp0 9)).SystemBuffer.Response.RequestId) ∧
    ∃ r, DPT_Control sizes0 idleCollaborators { state0 with DptRequests := [entry0 500 1] }
          (FinishRequest sizes0 (resp0 9)) none = some r ∧
      r.Status = STATUS_INVALID_DEVICE_REQUEST ∧
      r.State = { state0 with DptRequests := [entry0 500 1] } ∧
      r.FsContext = (FinishRequest sizes0 (resp0 9)).FsContext ∧ r.Information = 0 ∧
      r.Forwarded = [] ∧ r.Stored = none :=
  ⟨rfl, rfl, rfl, by decide,
   DPT_Control_finish_unknown_request sizes0 idleCollaborators
     { state0 with DptRequests := [entry0 500 1] } (FinishRequest sizes0 (resp0 9)) none
     rfl rfl rfl (by decide)⟩

/-! ## DPT_CancelPendingReads -/

theorem ulongDec_succ (k : Nat) : ulongDec ((k + 1) % 2 ^ 32) = k % 2 ^ 32 := by
  unfold ulongDec
  omega

theorem ulongDec_iterate_length (k : Nat) : ulongDec^[k] (k % 2 ^ 32) = 0 := by
  induction k with
  | zero => rfl
  | succ k ih => rw [Function.iterate_succ_apply, ulongDec_succ, ih]

theorem DPT_CancelPendingReads.messages_eq (l : List PARSER_MESSAGE) (n : Nat) :
    DPT_CancelPendingReads.messages l n = ([], ulongDec^[l.length] n) := by
  induction l generalizing n with
  | nil => rfl
  | cons m rest ih =>
    show DPT_CancelPendingReads.messages rest (ulongDec n) = _
    rw [ih, List.length_cons, Function.iterate_succ_apply]

theorem DPT_CancelPendingReads.reads_armed (fuel : Nat) (l : List IRP) (n : Nat)
    (harmed : ∀ x ∈ l, x.CancelRoutine = true) (hfuel : l.length < fuel) :
    DPT_CancelPendingReads.reads fuel l n
      = some ([], ulongDec^[l.length] n,
          l.map (fun x => { x with
            CancelRoutine := false,
            IoStatus := { Status := STATUS_CANCELLED, Information := 0 } })) := by
  induction l generalizing fuel n with
  | nil =>
    cases fuel with
    | zero => simp at hfuel
    | succ f => rfl
  | cons x rest ih =>
    cases fuel with
    | zero => simp at hfuel
    | succ f =>
      have hx : x.CancelRoutine = true := harmed x (List.mem_cons_self _ _)
      have hr := ih f (ulongDec n) (fun y hy => harmed y (List.mem_cons_of_mem _ hy))
        (by simpa using hfuel)
      simp [DPT_CancelPendingReads.reads, IoSetCancelRoutine, hx, hr]

/-- C7 (teardown drains completely): when every pended read still has its cancel
routine set, DPT_CancelPendingReads returns as soon as the fuel exceeds the number
of pended reads; it leaves PendedMessages and PendedReads empty, brings each counter
that agreed with the length of its queue to 0, and completes the previously pended
reads, each once and in queue order, with STATUS_CANCELLED and 0 bytes. -/
theorem DPT_CancelPendingReads_drains (fuel : Nat) (c : SUBSCRIPTION_CONTEXT)
    (harmed : ∀ x ∈ c.PendedReads, x.CancelRoutine = true)
    (hfuel : c.PendedReads.length < fuel) :
    ∃ c1, DPT_CancelPendingReads fuel c
        = some (c1, c.PendedReads.map (fun x => { x with
            CancelRoutine := false,
            IoStatus := { Status := STATUS_CANCELLED, Information := 0 } })) ∧
      c1.PendedMessages = [] ∧ c1.PendedReads = [] ∧
      (c.PendedMessagesCount = c.PendedMessages.length % 2 ^ 32 → c1.PendedMessagesCount = 0) ∧
      (c.PendedReadsCount = c.PendedReads.length % 2 ^ 32 → c1.PendedReadsCount = 0) ∧
      c1.Addr = c.Addr ∧ c1.pFileObject = c.pFileObject ∧
      c1.ServicingContext = c.ServicingContext := by
  have hr := DPT_CancelPendingReads.reads_armed fuel c.PendedReads c.PendedReadsCount harmed hfuel
  have hm := DPT_CancelPendingReads.messages_eq c.PendedMessages c.PendedMessagesCount
  refine ⟨{ c with
      PendedMessages := [], PendedMessagesCount := ulongDec^[c.PendedMessages.length] c.PendedMessagesCount,
      PendedReads := [], PendedReadsCount := ulongDec^[c.PendedReads.length] c.PendedReadsCount },
    ?_, rfl, rfl, ?_, ?_, rfl, rfl, rfl⟩
  · simp [DPT_CancelPendingReads, hr, hm]
  · intro h
    show ulongDec^[c.PendedMessages.length] c.PendedMessagesCount = 0
    rw [h]
    exact ulongDec_iterate_length _
  · intro h
    show ulongDec^[c.PendedReads.length] c.PendedReadsCount = 0
    rw [h]
    exact ulongDec_iterate_length _

theorem DPT_CancelPendingReads_drains_witness :
    (∀ x ∈ ctx1.PendedReads, x.CancelRoutine = true) ∧ ctx1.PendedReads.length < 3 ∧
    ∃ c1, DPT_CancelPendingReads 3 ctx1
        = some (c1, ctx1.PendedReads.map (fun x => { x with
            CancelRoutine := false,
            IoStatus := { Status := STATUS_CANCELLED, Information := 0 } })) ∧
      c1.PendedMessages = [] ∧ c1.PendedReads = [] ∧
      (ctx1.PendedMessagesCount = ctx1.PendedMessages.length % 2 ^ 32 →
        c1.PendedMessagesCount = 0) ∧
      (ctx1.PendedReadsCount = ctx1.PendedReads.length % 2 ^ 32 → c1.PendedReadsCount = 0) ∧
      c1.Addr = ctx1.Addr ∧ c1.pFileObject = ctx1.pFileObject ∧
      c1.ServicingContext = ctx1.ServicingContext :=
  ⟨by decide, by decide, DPT_CancelPendingReads_drains 3 ctx1 (by decide) (by decide)⟩

/-! ## DPT_SendMessage and the shared send-or-queue body -/

theorem locate_none {α : Type} (p : α → Bool) (l : List α) (h : locate p l = none) :
    ∀ x ∈ l, p x = false := by
  intro x hx
  by_contra hp
  obtain ⟨a, y, b, hy⟩ := locate_of_mem p l ⟨x, hx, by simpa using hp⟩
  rw [h] at hy
  exact Option.noConfusion hy

theorem IoSetCancelRoutine_clear (x : IRP) (h : x.CancelRoutine = false) :
    (IoSetCancelRoutine x false).1 = x := by
  cases x
  simp only [IoSetCancelRoutine] at *
  subst h
  rfl

theorem DPT_SendMessage.scan_none (l : List IRP) (h : ∀ x ∈ l, x.CancelRoutine = false) :
    DPT_SendMessage.scan l = (none, l) := by
  induction l with
  | nil => rfl
  | cons x rest ih =>
    have hx : x.CancelRoutine = false := h x (List.mem_cons_self _ _)
    have hr := ih (fun y hy => h y (List.mem_cons_of_mem _ hy))
    have h2 : (IoSetCancelRoutine x false).2 = false := hx
    rw [DPT_SendMessage.scan]
    simp only [h2, hr, IoSetCancelRoutine_clear x hx]
    simp

theorem DPT_SendMessage.scan_some (a : List IRP) (x : IRP) (b : List IRP)
    (ha : ∀ y ∈ a, y.CancelRoutine = false) (hx : x.CancelRoutine = true) :
    DPT_SendMessage.scan (a ++ x :: b) = (some { x with CancelRoutine := false }, a ++ b) := by
  induction a with
  | nil =>
    have h2 : (IoSetCancelRoutine x false).2 = true := hx
    rw [List.nil_append, DPT_SendMessage.scan]
    simp only [h2]
    rfl
  | cons y rest ih =>
    have hy : y.CancelRoutine = false := ha y (List.mem_cons_self _ _)
    have hr := ih (fun z hz => ha z (List.mem_cons_of_mem _ hz))
    have h2 : (IoSetCancelRoutine y false).2 = false := hy
    rw [List.cons_append, DPT_SendMessage.scan]
    simp only [h2, hr, IoSetCancelRoutine_clear y hy]
    simp

theorem DPT_SendOrQueue_queued (L : SIZES) (c : SUBSCRIPTION_CONTEXT) (m : PARSER_MESSAGE)
    (h : ∀ y ∈ c.PendedReads, y.CancelRoutine = false) :
    DPT_SendOrQueue L c m
      = some ({ c with
          PendedMessages := c.PendedMessages ++ [m],
          PendedMessagesCount := ulongInc c.PendedMessagesCount }, []) := by
  have hs := DPT_SendMessage.scan_none c.PendedReads h
  have hsend : DPT_SendMessage L c m = some (c, false, []) := by
    unfold DPT_SendMessage
    split
    · rfl
    · rw [hs]
  simp [DPT_SendOrQueue, hsend]

theorem DPT_SendOrQueue_delivered (L : SIZES) (c : SUBSCRIPTION_CONTEXT) (m : PARSER_MESSAGE)
    (a : List IRP) (x : IRP) (b : List IRP) (hl : c.PendedReads = a ++ x :: b)
    (ha : ∀ y ∈ a, y.CancelRoutine = false) (hx : x.CancelRoutine = true)
    (hv : ValidRead L x = true) :
    DPT_SendOrQueue L c m
      = some ({ c with
          PendedReads := a ++ b, PendedReadsCount := ulongDec c.PendedReadsCount },
        [{ x with
          CancelRoutine := false,
          Data := some { Destination := x.pBuffer, Source := m, Length := L.PARSER_MESSAGE },
          IoStatus := { Status := STATUS_SUCCESS, Information := L.PARSER_MESSAGE } }]) := by
  have hs := DPT_SendMessage.scan_some a x b ha hx
  have hne : c.PendedReads.isEmpty = false := by rw [hl]; simp
  unfold ValidRead at hv
  cases hmdl : x.MdlAddress with
  | none => simp [hmdl] at hv
  | some mdl =>
    simp only [hmdl, Bool.and_eq_true, decide_eq_true_eq] at hv
    have hmin : min mdl.ByteCount L.PARSER_MESSAGE = L.PARSER_MESSAGE := Nat.min_eq_right hv.2
    simp [DPT_SendOrQueue, DPT_SendMessage, hne, hl, hs, hmdl, hv.1, hmin, IRP.pBuffer]

/-- The shared body always returns on a context whose pended reads are valid, and
its outcome is one of "delivered" and "queued". -/
theorem DPT_SendOrQueue_outcome (L : SIZES) (c : SUBSCRIPTION_CONTEXT) (m : PARSER_MESSAGE)
    (hv : QueueValid L c) :
    ∃ c1 done, DPT_SendOrQueue L c m = some (c1, done) ∧
      (Delivered L m c c1 done ∨ Queued m c c1 done) := by
  cases hloc : locate (fun x : IRP => x.CancelRoutine) c.PendedReads with
  | none =>
    have h := locate_none _ _ hloc
    exact ⟨_, _, DPT_SendOrQueue_queued L c m h, Or.inr ⟨h, rfl, rfl⟩⟩
  | some z =>
    obtain ⟨a, x, b⟩ := z
    obtain ⟨hl, hx, ha⟩ := locate_some _ _ _ _ _ hloc
    have hvx : ValidRead L x = true := hv x (by rw [hl]; simp)
    exact ⟨_, _, DPT_SendOrQueue_delivered L c m a x b hl ha hx hvx,
      Or.inl ⟨a, x, b, hl, ha, hx, rfl, rfl⟩⟩

theorem not_Delivered_and_Queued (L : SIZES) (m : PARSER_MESSAGE)
    (c c1 : SUBSCRIPTION_CONTEXT) (done : List IRP) :
    ¬ (Delivered L m c c1 done ∧ Queued m c c1 done) := by
  rintro ⟨⟨a, x, b, _, _, _, _, hd⟩, _, _, hq⟩
  rw [hq] at hd
  exact List.noConfusion hd

theorem outcome_Addr (L : SIZES) (m : PARSER_MESSAGE) (c c1 : SUBSCRIPTION_CONTEXT)
    (done : List IRP) (h : Delivered L m c c1 done ∨ Queued m c c1 done) :
    c1.Addr = c.Addr ∧ c1.ServicingContext = c.ServicingContext ∧ (QueueValid L c → QueueValid L c1) := by
  rcases h with ⟨a, x, b, hl, _, _, hc, _⟩ | ⟨_, hc, _⟩
  · subst hc
    refine ⟨rfl, rfl, ?_⟩
    intro hv y hy
    apply hv y
    rw [hl]
    simp only [List.mem_append, List.mem_cons] at hy ⊢
    tauto
  · subst hc
    exact ⟨rfl, rfl, fun hv => hv⟩

/-! ## DPT_QueueMessage -/

theorem contextAt_cons (p : Nat) (y : SUBSCRIPTION_CONTEXT) (rest : List SUBSCRIPTION_CONTEXT) :
    contextAt p (y :: rest) = if y.Addr = p then some y else contextAt p rest := by
  unfold contextAt
  by_cases h : y.Addr = p
  · simp [locate, h]
  · simp only [locate, h, decide_False, Bool.false_eq_true, if_false]
    cases locate (fun c : SUBSCRIPTION_CONTEXT => decide (c.Addr = p)) rest with
    | none => rfl
    | some z => rfl

theorem contextAt_update (p : Nat) (subs a b : List SUBSCRIPTION_CONTEXT)
    (c c1 : SUBSCRIPTION_CONTEXT)
    (h : locate (fun c => decide (c.Addr = p)) subs = some (a, c, b)) (h1 : c1.Addr = p) :
    locate (fun c => decide (c.Addr = p)) (a ++ c1 :: b) = some (a, c1, b) ∧
    contextAt p (a ++ c1 :: b) = some c1 := by
  obtain ⟨_, _, ha⟩ := locate_some _ _ _ _ _ h
  have := locate_append (fun c : SUBSCRIPTION_CONTEXT => decide (c.Addr = p)) a c1 b ha
    (by simpa using h1)
  exact ⟨this, by simp [contextAt, this]⟩

theorem contextAt_some (p : Nat) (subs : List SUBSCRIPTION_CONTEXT) (c : SUBSCRIPTION_CONTEXT)
    (h : contextAt p subs = some c) :
    ∃ a b, locate (fun c => decide (c.Addr = p)) subs = some (a, c, b) := by
  unfold contextAt at h
  cases hl : locate (fun c : SUBSCRIPTION_CONTEXT => decide (c.Addr = p)) subs with
  | none => simp [hl] at h
  | some z =>
    obtain ⟨a, y, b⟩ := z
    simp [hl] at h
    subst h
    exact ⟨a, b, rfl⟩

theorem DPT_QueueMessage.loop_outcome (L : SIZES) (m : PARSER_MESSAGE)
    (subs : List SUBSCRIPTION_CONTEXT) (hv : ∀ c ∈ subs, QueueValid L c) :
    ∃ outs : List (SUBSCRIPTION_CONTEXT × List IRP),
      DPT_QueueMessage.loop L m subs = some (outs.map Prod.fst, completions outs) ∧
      List.Forall₂ (fun c o => DPT_SendOrQueue L c m = some o ∧
        (Delivered L m c o.1 o.2 ∨ Queued m c o.1 o.2)) subs outs := by
  induction subs with
  | nil => exact ⟨[], rfl, List.Forall₂.nil⟩
  | cons c rest ih =>
    obtain ⟨outs, hloop, hall⟩ := ih (fun y hy => hv y (List.mem_cons_of_mem _ hy))
    obtain ⟨c1, done, hsend, hout⟩ := DPT_SendOrQueue_outcome L c m (hv c (List.mem_cons_self _ _))
    refine ⟨(c1, done) :: outs, ?_, List.Forall₂.cons ⟨hsend, hout⟩ hall⟩
    simp [DPT_QueueMessage.loop, hsend, hloop, completions]

theorem contextAt_outcome (L : SIZES) (m : PARSER_MESSAGE) (p : Nat)
    (subs : List SUBSCRIPTION_CONTEXT) (outs : List (SUBSCRIPTION_CONTEXT × List IRP))
    (c : SUBSCRIPTION_CONTEXT)
    (hall : List.Forall₂ (fun c o => DPT_SendOrQueue L c m = some o ∧
        (Delivered L m c o.1 o.2 ∨ Queued m c o.1 o.2)) subs outs)
    (hc : contextAt p subs = some c) :
    ∃ o, DPT_SendOrQueue L c m = some o ∧ contextAt p (outs.map Prod.fst) = some o.1 ∧
      ∀ x ∈ o.2, x ∈ completions outs := by
  induction hall with
  | nil => simp [contextAt, locate] at hc
  | @cons y o rest outs1 hy _ ih =>
    have haddr := (outcome_Addr L m y o.1 o.2 hy.2).1
    rw [contextAt_cons] at hc
    by_cases h : y.Addr = p
    · simp only [h, if_true, Option.some.injEq] at hc
      subst hc
      refine ⟨o, hy.1, ?_, ?_⟩
      · rw [List.map_cons, contextAt_cons]
        simp [haddr, h]
      · intro x hx
        simp [completions, hx]
    · simp only [h, if_false] at hc
      obtain ⟨o2, h1, h2, h3⟩ := ih hc
      refine ⟨o2, h1, ?_, ?_⟩
      · rw [List.map_cons, contextAt_cons]
        simp [haddr, h, h2]
      · intro x hx
        simp [completions, h3 x hx]

theorem registry_valid_outcome (L : SIZES) (m : PARSER_MESSAGE)
    (subs : List SUBSCRIPTION_CONTEXT) (outs : List (SUBSCRIPTION_CONTEXT × List IRP))
    (hall : List.Forall₂ (fun c o => DPT_SendOrQueue L c m = some o ∧
        (Delivered L m c o.1 o.2 ∨ Queued m c o.1 o.2)) subs outs)
    (hv : ∀ c ∈ subs, QueueValid L c) : ∀ c ∈ outs.map Prod.fst, QueueValid L c := by
  induction hall with
  | nil => simp
  | @cons y o rest outs1 hy _ ih =>
    intro c hc
    rw [List.map_cons] at hc
    rcases List.mem_cons.mp hc with rfl | hc2
    · exact (outcome_Addr L m y o.1 o.2 hy.2).2.2 (hv y (List.mem_cons_self _ _))
    · exact ih (fun z hz => hv z (List.mem_cons_of_mem _ hz)) c hc2

/-- C9 (publish reaches every subscriber exactly once): on a registry whose pended
reads all passed the validation of DPT_Read, DPT_QueueMessage returns, leaves
DptRequests and the request counter alone, and maps the registry position by
position: each subscriber is either "delivered" (its oldest armed pended read is
completed with the whole message, PendedMessages untouched) or "queued" (one copy
appended at the tail of PendedMessages, PendedReads untouched), never both; the
IRPs completed are those of the subscribers, in registry order. -/
theorem DPT_QueueMessage_reaches_every_subscriber (L : SIZES) (s : DPT_STATE)
    (m : PARSER_MESSAGE) (hv : RegistryValid L s) :
    ∃ outs : List (SUBSCRIPTION_CONTEXT × List IRP),
      DPT_QueueMessage L s m
        = some ({ s with DptSubscriptions := outs.map Prod.fst }, completions outs) ∧
      List.Forall₂ (fun c o =>
        (Delivered L m c o.1 o.2 ∨ Queued m c o.1 o.2) ∧
        ¬ (Delivered L m c o.1 o.2 ∧ Queued m c o.1 o.2) ∧
        o.1.Addr = c.Addr ∧ o.1.pFileObject = c.pFileObject ∧
        o.1.ServicingContext = c.ServicingContext) s.DptSubscriptions outs := by
  obtain ⟨outs, hloop, hall⟩ := DPT_QueueMessage.loop_outcome L m s.DptSubscriptions hv
  refine ⟨outs, by simp [DPT_QueueMessage, hloop], ?_⟩
  refine List.Forall₂.imp ?_ hall
  intro c o h
  refine ⟨h.2, not_Delivered_and_Queued L m c o.1 o.2, ?_⟩
  rcases h.2 with ⟨a, x, b, _, _, _, hc, _⟩ | ⟨_, hc, _⟩ <;> rw [hc] <;> exact ⟨rfl, rfl, rfl⟩

theorem DPT_QueueMessage_reaches_every_subscriber_witness :
    RegistryValid sizes0 state2 ∧
    ∃ outs : List (SUBSCRIPTION_CONTEXT × List IRP),
      DPT_QueueMessage sizes0 state2 (msg0 7)
        = some ({ state2 with DptSubscriptions := outs.map Prod.fst }, completions outs) ∧
      List.Forall₂ (fun c o =>
        (Delivered sizes0 (msg0 7) c o.1 o.2 ∨ Queued (msg0 7) c o.1 o.2) ∧
        ¬ (Delivered sizes0 (msg0 7) c o.1 o.2 ∧ Queued (msg0 7) c o.1 o.2) ∧
        o.1.Addr = c.Addr ∧ o.1.pFileObject = c.pFileObject ∧
        o.1.ServicingContext = c.ServicingContext) state2.DptSubscriptions outs :=
  ⟨by unfold RegistryValid QueueValid; decide,
   DPT_QueueMessage_reaches_every_subscriber sizes0 state2 (msg0 7)
     (by unfold RegistryValid QueueValid; decide)⟩

/-- What DPT_QueueMessage does to the subscriber at address `p`: the shared body
applied to it, whatever the rest of the registry holds. -/
theorem DPT_QueueMessage_at (L : SIZES) (s : DPT_STATE) (m : PARSER_MESSAGE) (p : Nat)
    (c : SUBSCRIPTION_CONTEXT) (hv : RegistryValid L s) (hc : subscriber p s = some c) :
    ∃ s1 done c1 d1, DPT_QueueMessage L s m = some (s1, done) ∧
      DPT_SendOrQueue L c m = some (c1, d1) ∧ subscriber p s1 = some c1 ∧
      (∀ x ∈ d1, x ∈ done) ∧ RegistryValid L s1 ∧
      s1.DptRequests = s.DptRequests ∧ s1.DptRequestCounter = s.DptRequestCounter := by
  obtain ⟨outs, hloop, hall⟩ := DPT_QueueMessage.loop_outcome L m s.DptSubscriptions hv
  obtain ⟨o, h1, h2, h3⟩ := contextAt_outcome L m p _ outs c hall hc
  refine ⟨{ s with DptSubscriptions := outs.map Prod.fst }, completions outs, o.1, o.2,
    by simp [DPT_QueueMessage, hloop], h1, h2, h3, ?_, rfl, rfl⟩
  exact registry_valid_outcome L m _ outs hall hv

/-- C2 (fast path): when the subscriber at `p` has no pended message and its
PendedReads is `a ++ x :: b` with `x` the oldest read whose cancel routine is still
set, DPT_QueueMessage completes `x` with STATUS_SUCCESS and the whole message,
copied to the `pBuffer` of `x`, removes exactly `x` from PendedReads and leaves
PendedMessages of length 0. -/
theorem DPT_QueueMessage_fast_path (L : SIZES) (s : DPT_STATE) (m : PARSER_MESSAGE) (p : Nat)
    (c : SUBSCRIPTION_CONTEXT) (a : List IRP) (x : IRP) (b : List IRP)
    (hv : RegistryValid L s) (hc : subscriber p s = some c) (hm : c.PendedMessages = [])
    (hl : c.PendedReads = a ++ x :: b) (ha : ∀ y ∈ a, y.CancelRoutine = false)
    (hx : x.CancelRoutine = true) :
    ∃ s1 done c1, DPT_QueueMessage L s m = some (s1, done) ∧ subscriber p s1 = some c1 ∧
      c1.PendedReads = a ++ b ∧ c1.PendedMessages.length = 0 ∧
      c1.PendedReadsCount = ulongDec c.PendedReadsCount ∧
      DPT_SendOrQueue L c m
        = some (c1, [{ x with
            CancelRoutine := false,
            Data := some { Destination := x.pBuffer, Source := m, Length := L.PARSER_MESSAGE },
            IoStatus := { Status := STATUS_SUCCESS, Information := L.PARSER_MESSAGE } }]) ∧
      { x with
          CancelRoutine := false,
          Data := some { Destination := x.pBuffer, Source := m, Length := L.PARSER_MESSAGE },
          IoStatus := { Status := STATUS_SUCCESS, Information := L.PARSER_MESSAGE } } ∈ done := by
  obtain ⟨s1, done, c1, d1, h1, h2, h3, h4, _, _, _⟩ := DPT_QueueMessage_at L s m p c hv hc
  obtain ⟨a0, b0, hloc⟩ := contextAt_some p _ c hc
  have hmem : c ∈ s.DptSubscriptions := by
    rw [(locate_some _ _ _ _ _ hloc).1]; simp
  have hvx : ValidRead L x = true := hv c hmem x (by rw [hl]; simp)
  have hd := DPT_SendOrQueue_delivered L c m a x b hl ha hx hvx
  rw [hd] at h2
  simp only [Option.some.injEq, Prod.mk.injEq] at h2
  obtain ⟨e1, e2⟩ := h2
  subst e1 e2
  refine ⟨s1, done, _, h1, h3, rfl, by simp [hm], rfl, hd, h4 _ (by simp)⟩

theorem DPT_QueueMessage_fast_path_witness :
    RegistryValid sizes0 state2 ∧ subscriber 100 state2 = some ctx2 ∧
    ctx2.PendedMessages = [] ∧ ctx2.PendedReads = [irp0 1] ++ armed 2 :: [armed 3] ∧
    (∀ y ∈ [irp0 1], y.CancelRoutine = false) ∧ (armed 2).CancelRoutine = true ∧
    ∃ s1 done c1, DPT_QueueMessage sizes0 state2 (msg0 7) = some (s1, done) ∧
      subscriber 100 s1 = some c1 ∧
      c1.PendedReads = [irp0 1] ++ [armed 3] ∧
      c1.PendedMessages.length = 0 ∧
      c1.PendedReadsCount = ulongDec ctx2.PendedReadsCount ∧
      DPT_SendOrQueue sizes0 ctx2 (msg0 7)
        = some (c1, [{ armed 2 with
            CancelRoutine := false,
            Data := some { Destination := 4096 + 24, Source := msg0 7,
                           Length := sizes0.PARSER_MESSAGE },
            IoStatus := { Status := STATUS_SUCCESS, Information := sizes0.PARSER_MESSAGE } }]) ∧
      { armed 2 with
          CancelRoutine := false,
          Data := some { Destination := 4096 + 24, Source := msg0 7,
                           Length := sizes0.PARSER_MESSAGE },
          IoStatus := { Status := STATUS_SUCCESS, Information := sizes0.PARSER_MESSAGE } } ∈ done :=
  ⟨by unfold RegistryValid QueueValid; decide, by decide, rfl, rfl, by decide, rfl,
   DPT_QueueMessage_fast_path sizes0 state2 (msg0 7) 100 ctx2 [irp0 1] (armed 2) [armed 3]
     (by unfold RegistryValid QueueValid; decide) (by decide) rfl rfl (by decide) rfl⟩

/-! ## DPT_SynchronouseRequest with a servicing subscriber -/

/-- The dispatch part of DPT_SynchronouseRequest on a registry split at its first
servicing context. -/
theorem DPT_SynchronouseRequest.issue_eq (L : SIZES) (s : DPT_STATE)
    (pRequest : PARSER_MESSAGE) (pResponse : Option PARSER_RESPONSE_MESSAGE)
    (TimeoutMs pEntry : Nat) (SystemTime : Int)
    (a b : List SUBSCRIPTION_CONTEXT) (c c1 : SUBSCRIPTION_CONTEXT) (done : List IRP)
    (hloc : locate (fun c => c.ServicingContext) s.DptSubscriptions = some (a, c, b))
    (hsend : DPT_SendOrQueue L c
      { pRequest with RequestId := InterlockedIncrement s.DptRequestCounter } = some (c1, done)) :
    DPT_SynchronouseRequest.issue L s pRequest pResponse TimeoutMs pEntry SystemTime
      = some (some ({ DptSubscriptions := a ++ c1 :: b,
                      DptRequests := s.DptRequests ++
                        [{ Addr := pEntry,
                           RequestId := InterlockedIncrement s.DptRequestCounter,
                           Event := false, StartTime := SystemTime, pResponse := pResponse }],
                      DptRequestCounter := InterlockedIncrement s.DptRequestCounter },
                    { pRequest with RequestId := InterlockedIncrement s.DptRequestCounter },
                    DPT_SynchronouseRequest.Timeout TimeoutMs, done)) := by
  simp [DPT_SynchronouseRequest.issue, hloc, hsend]

/-- C10 (call targets exactly one servicer): on a registry with valid pended reads
and at least one servicing subscriber, DPT_SynchronouseRequest splits the registry
as `a ++ c :: b` with `c` the first context in registry order whose ServicingContext
is set, hands the request (carrying its new RequestId) to `c` alone, by delivery to
a pended read or else by appending a copy to PendedMessages, and leaves every
context of `a` and `b` as it was, both when the caller blocks and when it returns. -/
theorem DPT_SynchronouseRequest_targets_first_servicer (L : SIZES) (s : DPT_STATE)
    (pRequest : PARSER_MESSAGE) (pResponse : Option PARSER_RESPONSE_MESSAGE)
    (TimeoutMs pEntry : Nat) (SystemTime : Int)
    (hv : RegistryValid L s) (hs : ∃ c ∈ s.DptSubscriptions, c.ServicingContext = true) :
    ∃ a c b c1 done s1,
      s.DptSubscriptions = a ++ c :: b ∧ (∀ y ∈ a, y.ServicingContext = false) ∧
      c.ServicingContext = true ∧
      (Delivered L { pRequest with RequestId := InterlockedIncrement s.DptRequestCounter }
          c c1 done ∨
        Queued { pRequest with RequestId := InterlockedIncrement s.DptRequestCounter }
          c c1 done) ∧
      DPT_SynchronouseRequest.issue L s pRequest pResponse TimeoutMs pEntry SystemTime
        = some (some (s1,
            { pRequest with RequestId := InterlockedIncrement s.DptRequestCounter },
            DPT_SynchronouseRequest.Timeout TimeoutMs, done)) ∧
      s1.DptSubscriptions = a ++ c1 :: b ∧
      ∃ r, DPT_SynchronouseRequest L s pRequest pResponse TimeoutMs pEntry SystemTime nobody
            = some r ∧
        r.State.DptSubscriptions = a ++ c1 :: b ∧ r.Completed = done := by
  obtain ⟨a, c, b, hloc⟩ := locate_of_mem (fun c : SUBSCRIPTION_CONTEXT => c.ServicingContext) _ hs
  obtain ⟨hl, hc, ha⟩ := locate_some _ _ _ _ _ hloc
  have hvc : QueueValid L c := hv c (by rw [hl]; simp)
  obtain ⟨c1, done, hsend, hout⟩ := DPT_SendOrQueue_outcome L c
    { pRequest with RequestId := InterlockedIncrement s.DptRequestCounter } hvc
  have hissue := DPT_SynchronouseRequest.issue_eq L s pRequest pResponse TimeoutMs pEntry
    SystemTime a b c c1 done hloc hsend
  refine ⟨a, c, b, c1, done, _, hl, ha, hc, hout, hissue, rfl, ?_⟩
  obtain ⟨ea, e, eb, he⟩ := locate_of_mem (fun e : REQUEST_ENTRY => decide (e.Addr = pEntry))
    (s.DptRequests ++
      [{ Addr := pEntry, RequestId := InterlockedIncrement s.DptRequestCounter,
         Event := false, StartTime := SystemTime, pResponse := pResponse }])
    ⟨_, List.mem_append_right _ (List.mem_singleton_self _), by simp⟩
  simp only [DPT_SynchronouseRequest, hissue, nobody, he]
  exact ⟨_, rfl, rfl, rfl⟩

theorem DPT_SynchronouseRequest_targets_first_servicer_witness :
    RegistryValid sizes0 state2 ∧ (∃ c ∈ state2.DptSubscriptions, c.ServicingContext = true) ∧
    ∃ a c b c1 done s1,
      state2.DptSubscriptions = a ++ c :: b ∧ (∀ y ∈ a, y.ServicingContext = false) ∧
      c.ServicingContext = true ∧
      (Delivered sizes0
          { msg0 7 with RequestId := InterlockedIncrement state2.DptRequestCounter } c c1 done ∨
        Queued { msg0 7 with RequestId := InterlockedIncrement state2.DptRequestCounter }
          c c1 done) ∧
      DPT_SynchronouseRequest.issue sizes0 state2 (msg0 7) (some (resp0 0)) 10 500 0
        = some (some (s1,
            { msg0 7 with RequestId := InterlockedIncrement state2.DptRequestCounter },
            DPT_SynchronouseRequest.Timeout 10, done)) ∧
      s1.DptSubscriptions = a ++ c1 :: b ∧
      ∃ r, DPT_SynchronouseRequest sizes0 state2 (msg0 7) (some (resp0 0)) 10 500 0 nobody
            = some r ∧
        r.State.DptSubscriptions = a ++ c1 :: b ∧ r.Completed = done :=
  ⟨by unfold RegistryValid QueueValid; decide, by decide,
   DPT_SynchronouseRequest_targets_first_servicer sizes0 state2 (msg0 7) (some (resp0 0))
     10 500 0 (by unfold RegistryValid QueueValid; decide) (by decide)⟩

/-! ## FIFO order of a subscriber -/

theorem DPT_QueueMessage_queues (L : SIZES) (s : DPT_STATE) (m : PARSER_MESSAGE) (p : Nat)
    (c : SUBSCRIPTION_CONTEXT) (hv : RegistryValid L s) (hc : subscriber p s = some c)
    (hr : c.PendedReads = []) :
    ∃ s1 done, DPT_QueueMessage L s m = some (s1, done) ∧ RegistryValid L s1 ∧
      subscriber p s1 = some { c with
        PendedMessages := c.PendedMessages ++ [m],
        PendedMessagesCount := ulongInc c.PendedMessagesCount } := by
  obtain ⟨s1, done, c1, d1, h1, h2, h3, _, h5, _, _⟩ := DPT_QueueMessage_at L s m p c hv hc
  have hq := DPT_SendOrQueue_queued L c m (by rw [hr]; simp)
  rw [hq] at h2
  simp only [Option.some.injEq, Prod.mk.injEq] at h2
  obtain ⟨e1, _⟩ := h2
  subst e1
  exact ⟨s1, done, h1, h5, h3⟩

theorem publishAll_queues (L : SIZES) (p : Nat) (msgs : List PARSER_MESSAGE) :
    ∀ (s : DPT_STATE) (c : SUBSCRIPTION_CONTEXT), RegistryValid L s →
      subscriber p s = some c → c.PendedReads = [] →
      ∃ s1 done c1, publishAll L s msgs = some (s1, done) ∧ subscriber p s1 = some c1 ∧
        c1.PendedReads = [] ∧ c1.PendedMessages = c.PendedMessages ++ msgs := by
  induction msgs with
  | nil =>
    intro s c _ hc hr
    exact ⟨s, [], c, rfl, hc, hr, by simp⟩
  | cons m rest ih =>
    intro s c hv hc hr
    obtain ⟨s1, done, h1, hv1, hc1⟩ := DPT_QueueMessage_queues L s m p c hv hc hr
    obtain ⟨s2, done2, c2, h2, hc2, hr2, hm2⟩ := ih s1 _ hv1 hc1 hr
    refine ⟨s2, done ++ done2, c2, ?_, hc2, hr2, ?_⟩
    · simp [publishAll, h1, h2]
    · rw [hm2]; simp

theorem DPT_Read_pended_message (L : SIZES) (s : DPT_STATE) (p : Nat)
    (c : SUBSCRIPTION_CONTEXT) (m : PARSER_MESSAGE) (rest : List PARSER_MESSAGE) (pIrp : IRP)
    (hc : subscriber p s = some c) (hm : c.PendedMessages = m :: rest)
    (hv : ValidRead L pIrp = true) (hcancel : pIrp.Cancel = false) :
    ∃ r, DPT_Read L s (some p) pIrp = some r ∧ r.Status = STATUS_SUCCESS ∧
      r.Completed = true ∧
      r.Irp.IoStatus = { Status := STATUS_SUCCESS, Information := L.PARSER_MESSAGE } ∧
      r.Irp.Data
        = some { Destination := pIrp.pBuffer, Source := m, Length := L.PARSER_MESSAGE } ∧
      subscriber p r.State = some { c with
        PendedMessages := rest,
        PendedMessagesCount := ulongDec c.PendedMessagesCount } ∧
      r.Irp.Addr = pIrp.Addr ∧ r.Irp.MdlAddress = pIrp.MdlAddress := by
  obtain ⟨a, b, hloc⟩ := contextAt_some p _ c hc
  have haddr : c.Addr = p := by simpa using (locate_some _ _ _ _ _ hloc).2.1
  unfold ValidRead at hv
  cases hmdl : pIrp.MdlAddress with
  | none => simp [hmdl] at hv
  | some mdl =>
    simp only [hmdl, Bool.and_eq_true, decide_eq_true_eq] at hv
    have hmin : min mdl.ByteCount L.PARSER_MESSAGE = L.PARSER_MESSAGE := Nat.min_eq_right hv.2
    have hlt : ¬ mdl.ByteCount < L.PARSER_MESSAGE := Nat.not_lt.mpr hv.2
    have hne : STATUS_SUCCESS ≠ STATUS_PENDING := by decide
    have hup := contextAt_update p _ a b c
      { c with PendedMessages := rest, PendedMessagesCount := ulongDec c.PendedMessagesCount }
      hloc haddr
    have hread : DPT_Read L s (some p) pIrp
        = some { State := { s with DptSubscriptions := a ++
                    { c with PendedMessages := rest,
                             PendedMessagesCount := ulongDec c.PendedMessagesCount } :: b },
                 Irp := { pIrp with
                    CancelRoutine := true,
                    Data := some { Destination := pIrp.pBuffer, Source := m,
                                   Length := L.PARSER_MESSAGE },
                    IoStatus := { Status := STATUS_SUCCESS, Information := L.PARSER_MESSAGE } },
                 Status := STATUS_SUCCESS, Completed := true } := by
      simp [DPT_Read, hmdl, hlt, hv.1, hloc, DPT_Read.locked, IoSetCancelRoutine, hcancel, hm,
        hmin, DPT_Read.cleanup, hne, IRP.pBuffer]
    exact ⟨_, hread, rfl, rfl, rfl, rfl, hup.2, rfl, hmdl⟩

theorem readAll_drains (L : SIZES) (p : Nat) (irps : List IRP) :
    ∀ (msgs : List PARSER_MESSAGE) (s : DPT_STATE) (c : SUBSCRIPTION_CONTEXT),
      subscriber p s = some c → c.PendedMessages = msgs → irps.length = msgs.length →
      (∀ x ∈ irps, ValidRead L x = true ∧ x.Cancel = false) →
      ∃ s2 results c2, readAll L p s irps = some (s2, results) ∧
        List.Forall₂ (fun m r =>
          r.Status = STATUS_SUCCESS ∧ r.Completed = true ∧
          r.Irp.IoStatus = { Status := STATUS_SUCCESS, Information := L.PARSER_MESSAGE } ∧
          r.Irp.Data = some { Destination := r.Irp.pBuffer, Source := m,
                               Length := L.PARSER_MESSAGE }) msgs results ∧
        List.Forall₂ (fun x r => r.Irp.Addr = x.Addr ∧ r.Irp.MdlAddress = x.MdlAddress)
          irps results ∧
        subscriber p s2 = some c2 ∧ c2.PendedMessages = [] ∧ c2.PendedReads = c.PendedReads := by
  induction irps with
  | nil =>
    intro msgs s c hc hm hlen _
    have : msgs = [] := List.length_eq_zero.mp hlen.symm
    subst this
    exact ⟨s, [], c, rfl, List.Forall₂.nil, List.Forall₂.nil, hc, hm, rfl⟩
  | cons x rest ih =>
    intro msgs s c hc hm hlen hx
    cases msgs with
    | nil => simp at hlen
    | cons m ms =>
      obtain ⟨hvx, hcx⟩ := hx x (List.mem_cons_self _ _)
      obtain ⟨r, h1, h2, h3, h4, h5, h6, h7, h8⟩ :=
        DPT_Read_pended_message L s p c m ms x hc hm hvx hcx
      obtain ⟨s2, results, c2, g1, g2, g2a, g3, g4, g5⟩ := ih ms r.State _ h6 rfl
        (by simpa using hlen) (fun y hy => hx y (List.mem_cons_of_mem _ hy))
      have hb : r.Irp.pBuffer = x.pBuffer := by simp only [IRP.pBuffer, h8]
      refine ⟨s2, r :: results, c2, ?_, List.Forall₂.cons ⟨h2, h3, h4, by rw [h5, hb]⟩ g2,
        List.Forall₂.cons ⟨h7, h8⟩ g2a, g3, g4, g5⟩
      simp [readAll, h1, g1]

/-- C1 (FIFO per subscriber): take a registered subscriber (the context `FsContext = p`
refers to) with PendedReads and PendedMessages both empty, in a registry whose pended
reads are valid. After m1..mn are published in that order with DPT_QueueMessage, n
DPT_Read calls on that subscriber, each with a mapped buffer of at least
sizeof(PARSER_MESSAGE) bytes and not cancelled, all return STATUS_SUCCESS with the
IRP completed, report sizeof(PARSER_MESSAGE) bytes and carry m1..mn in that order,
each copied to the `pBuffer` of its IRP (the i-th result is that of the i-th IRP, with
its MDL); PendedMessages is empty afterwards. -/
theorem DPT_Read_fifo (L : SIZES) (s : DPT_STATE) (p : Nat) (c : SUBSCRIPTION_CONTEXT)
    (msgs : List PARSER_MESSAGE) (irps : List IRP)
    (hv : RegistryValid L s) (hc : subscriber p s = some c)
    (hr : c.PendedReads = []) (hm : c.PendedMessages = [])
    (hlen : irps.length = msgs.length)
    (hirps : ∀ x ∈ irps, ValidRead L x = true ∧ x.Cancel = false) :
    ∃ s1 done s2 results c2,
      publishAll L s msgs = some (s1, done) ∧ readAll L p s1 irps = some (s2, results) ∧
      List.Forall₂ (fun m r =>
        r.Status = STATUS_SUCCESS ∧ r.Completed = true ∧
        r.Irp.IoStatus = { Status := STATUS_SUCCESS, Information := L.PARSER_MESSAGE } ∧
        r.Irp.Data = some { Destination := r.Irp.pBuffer, Source := m,
                             Length := L.PARSER_MESSAGE }) msgs results ∧
      List.Forall₂ (fun x r => r.Irp.Addr = x.Addr ∧ r.Irp.MdlAddress = x.MdlAddress)
        irps results ∧
      subscriber p s2 = some c2 ∧ c2.PendedMessages = [] ∧ c2.PendedReads = [] := by
  obtain ⟨s1, done, c1, h1, hc1, hr1, hm1⟩ := publishAll_queues L p msgs s c hv hc hr
  rw [hm, List.nil_append] at hm1
  obtain ⟨s2, results, c2, g1, g2, g2a, g3, g4, g5⟩ := readAll_drains L p irps msgs s1 c1 hc1
    hm1 hlen hirps
  exact ⟨s1, done, s2, results, c2, h1, g1, g2, g2a, g3, g4, by rw [g5, hr1]⟩

theorem DPT_Read_fifo_witness :
    RegistryValid sizes0 state2 ∧ subscriber 200 state2 = some (ctx0 200 true) ∧
    (ctx0 200 true).PendedReads = [] ∧ (ctx0 200 true).PendedMessages = [] ∧
    [irp0 1, irp0 2, irp0 3].length = [msg0 1, msg0 2, msg0 3].length ∧
    (∀ x ∈ [irp0 1, irp0 2, irp0 3], ValidRead sizes0 x = true ∧ x.Cancel = false) ∧
    ∃ s1 done s2 results c2,
      publishAll sizes0 state2 [msg0 1, msg0 2, msg0 3] = some (s1, done) ∧
      readAll sizes0 200 s1 [irp0 1, irp0 2, irp0 3] = some (s2, results) ∧
      List.Forall₂ (fun m r =>
        r.Status = STATUS_SUCCESS ∧ r.Completed = true ∧
        r.Irp.IoStatus = { Status := STATUS_SUCCESS, Information := sizes0.PARSER_MESSAGE } ∧
        r.Irp.Data = some { Destination := r.Irp.pBuffer, Source := m,
                             Length := sizes0.PARSER_MESSAGE })
        [msg0 1, msg0 2, msg0 3] results ∧
      List.Forall₂ (fun x r => r.Irp.Addr = x.Addr ∧ r.Irp.MdlAddress = x.MdlAddress)
        [irp0 1, irp0 2, irp0 3] results ∧
      subscriber 200 s2 = some c2 ∧ c2.PendedMessages = [] ∧ c2.PendedReads = [] :=
  ⟨by unfold RegistryValid QueueValid; decide, by decide, rfl, rfl, rfl, by decide,
   DPT_Read_fifo sizes0 state2 200 (ctx0 200 true) [msg0 1, msg0 2, msg0 3]
     [irp0 1, irp0 2, irp0 3] (by unfold RegistryValid QueueValid; decide) (by decide) rfl rfl
     rfl (by decide)⟩

/-! ## Request and response -/

/-- C4 as stated fails on a registry where an entry with the RequestId about to be
assigned is still registered (`state3`): the call is given RequestId 1, FinishRequest
with RequestId 1 succeeds while the call waits, but DPT_FindRequestNoLock stops at the
older entry, so the caller's buffer does not receive the response. -/
theorem DPT_FindRequestNoLock_collision :
    ∃ s1 req t done k res,
      DPT_SynchronouseRequest.issue sizes0 state3 (msg0 7) (some blank) 5000 500 0
        = some (some (s1, req, t, done)) ∧
      req.RequestId = (resp0 1).RequestId ∧
      DPT_Control sizes0 idleCollaborators s1 (FinishRequest sizes0 (resp0 1)) none = some k ∧
      k.Status = STATUS_SUCCESS ∧
      DPT_SynchronouseRequest sizes0 state3 (msg0 7) (some blank) 5000 500 0
        (finishing sizes0 idleCollaborators (resp0 1)) = some res ∧
      res.Response = some blank ∧ res.Response ≠ some (resp0 1) := by
  refine ⟨_, _, _, _, _, _, rfl, ?_, rfl, ?_, rfl, ?_, ?_⟩ <;> decide

/-- C4 amended (request/response round trip): on a registry with valid pended reads
and a servicing subscriber, where no registered entry carries the RequestId about to
be assigned (and the caller's RequestEntry is a fresh object), if FinishRequest with
exact buffer sizes and `r.RequestId` equal to the assigned id is applied while the
call waits, then FinishRequest returns STATUS_SUCCESS, the call returns TRUE after a
signaled wait, the caller's response buffer equals `r`, and the request table is
again what it was before the call. -/
theorem DPT_SynchronouseRequest_round_trip (L : SIZES) (X : COLLABORATORS) (s : DPT_STATE)
    (pRequest : PARSER_MESSAGE) (buffer r : PARSER_RESPONSE_MESSAGE)
    (TimeoutMs pEntry : Nat) (SystemTime : Int)
    (hv : RegistryValid L s) (hs : ∃ c ∈ s.DptSubscriptions, c.ServicingContext = true)
    (hfresh : ∀ e ∈ s.DptRequests, e.RequestId ≠ InterlockedIncrement s.DptRequestCounter)
    (hentry : ∀ e ∈ s.DptRequests, e.Addr ≠ pEntry)
    (hid : r.RequestId = InterlockedIncrement s.DptRequestCounter) :
    ∃ s1 req t done k res,
      DPT_SynchronouseRequest.issue L s pRequest (some buffer) TimeoutMs pEntry SystemTime
        = some (some (s1, req, t, done)) ∧
      req.RequestId = r.RequestId ∧
      DPT_Control L X s1 (FinishRequest L r) none = some k ∧ k.Status = STATUS_SUCCESS ∧
      DPT_SynchronouseRequest L s pRequest (some buffer) TimeoutMs pEntry SystemTime
        (finishing L X r) = some res ∧
      res.Result = true ∧ res.WaitStatus = some STATUS_SUCCESS ∧ res.Response = some r ∧
      res.State.DptRequests = s.DptRequests := by
  obtain ⟨a, c, b, hloc⟩ := locate_of_mem (fun c : SUBSCRIPTION_CONTEXT => c.ServicingContext) _ hs
  have hvc : QueueValid L c := hv c (by rw [(locate_some _ _ _ _ _ hloc).1]; simp)
  obtain ⟨c1, done, hsend, _⟩ := DPT_SendOrQueue_outcome L c
    { pRequest with RequestId := InterlockedIncrement s.DptRequestCounter } hvc
  have hissue := DPT_SynchronouseRequest.issue_eq L s pRequest (some buffer) TimeoutMs pEntry
    SystemTime a b c c1 done hloc hsend
  have hfind : DPT_FindRequestNoLock
      (s.DptRequests ++
        [{ Addr := pEntry, RequestId := InterlockedIncrement s.DptRequestCounter,
           Event := false, StartTime := SystemTime, pResponse := some buffer }])
      r.RequestId
      = some (s.DptRequests,
          { Addr := pEntry, RequestId := InterlockedIncrement s.DptRequestCounter,
            Event := false, StartTime := SystemTime, pResponse := some buffer }, []) := by
    unfold DPT_FindRequestNoLock
    apply locate_append
    · intro e he
      simpa [hid] using hfresh e he
    · simp [hid]
  have hctl : DPT_Control L X
      { DptSubscriptions := a ++ c1 :: b,
        DptRequests := s.DptRequests ++
          [{ Addr := pEntry, RequestId := InterlockedIncrement s.DptRequestCounter,
             Event := false, StartTime := SystemTime, pResponse := some buffer }],
        DptRequestCounter := InterlockedIncrement s.DptRequestCounter }
      (FinishRequest L r) none
      = some { State :=
                { DptSubscriptions := a ++ c1 :: b,
                  DptRequests := s.DptRequests ++
                    [{ Addr := pEntry, RequestId := InterlockedIncrement s.DptRequestCounter,
                       Event := true, StartTime := SystemTime, pResponse := some r }],
                  DptRequestCounter := InterlockedIncrement s.DptRequestCounter },
               FsContext := none, Status := STATUS_SUCCESS, Information := 0,
               Forwarded := [], Stored := none } := by
    simp [DPT_Control, FinishRequest, hfind]
  have hown : locate (fun e : REQUEST_ENTRY => decide (e.Addr = pEntry))
      (s.DptRequests ++
        [{ Addr := pEntry, RequestId := InterlockedIncrement s.DptRequestCounter,
           Event := true, StartTime := SystemTime, pResponse := some r }])
      = some (s.DptRequests,
          { Addr := pEntry, RequestId := InterlockedIncrement s.DptRequestCounter,
            Event := true, StartTime := SystemTime, pResponse := some r }, []) := by
    apply locate_append
    · intro e he
      simpa using hentry e he
    · simp
  have hsucc : NT_SUCCESS STATUS_SUCCESS = true := by decide
  have hcall : ∃ res,
      DPT_SynchronouseRequest L s pRequest (some buffer) TimeoutMs pEntry SystemTime
        (finishing L X r) = some res ∧
      res.Result = true ∧ res.WaitStatus = some STATUS_SUCCESS ∧ res.Response = some r ∧
      res.State.DptRequests = s.DptRequests := by
    simp only [DPT_SynchronouseRequest, hissue, finishing, hctl, hown, KeWaitForSingleObject,
      if_true, hsucc, List.append_nil]
    exact ⟨_, rfl, rfl, rfl, rfl, rfl⟩
  obtain ⟨res, g1, g2, g3, g4, g5⟩ := hcall
  exact ⟨_, _, _, _, _, res, hissue, hid.symm, hctl, rfl, g1, g2, g3, g4, g5⟩

theorem DPT_SynchronouseRequest_round_trip_witness :
    RegistryValid sizes0 state2 ∧ (∃ c ∈ state2.DptSubscriptions, c.ServicingContext = true) ∧
    (∀ e ∈ state2.DptRequests, e.RequestId ≠ InterlockedIncrement state2.DptRequestCounter) ∧
    (∀ e ∈ state2.DptRequests, e.Addr ≠ 500) ∧
    (resp0 1).RequestId = InterlockedIncrement state2.DptRequestCounter ∧
    ∃ s1 req t done k res,
      DPT_SynchronouseRequest.issue sizes0 state2 (msg0 7) (some blank) 5000 500 0
        = some (some (s1, req, t, done)) ∧
      req.RequestId = (resp0 1).RequestId ∧
      DPT_Control sizes0 idleCollaborators s1 (FinishRequest sizes0 (resp0 1)) none = some k ∧
      k.Status = STATUS_SUCCESS ∧
      DPT_SynchronouseRequest sizes0 state2 (msg0 7) (some blank) 5000 500 0
        (finishing sizes0 idleCollaborators (resp0 1)) = some res ∧
      res.Result = true ∧ res.WaitStatus = some STATUS_SUCCESS ∧
      res.Response = some (resp0 1) ∧ res.State.DptRequests = state2.DptRequests :=
  ⟨by unfold RegistryValid QueueValid; decide, by decide, by decide, by decide, by decide,
   DPT_SynchronouseRequest_round_trip sizes0 idleCollaborators state2 (msg0 7) blank (resp0 1)
     5000 500 0 (by unfold RegistryValid QueueValid; decide) (by decide) (by decide)
     (by decide) (by decide)⟩

/-! ## Validity of the pended reads is kept by DPT_Read -/

theorem DPT_Read.locked_valid (L : SIZES) (c : SUBSCRIPTION_CONTEXT) (mdl : MDL) (pIrp : IRP)
    (hmdl : pIrp.MdlAddress = some mdl) (hmap : mdl.Mapped = true)
    (hsize : L.PARSER_MESSAGE ≤ mdl.ByteCount) (hv : QueueValid L c) :
    QueueValid L (DPT_Read.locked L c mdl pIrp).1 := by
  unfold DPT_Read.locked
  simp only [IoSetCancelRoutine]
  by_cases hc : pIrp.Cancel = true
  · simpa [hc] using hv
  · have hc2 : pIrp.Cancel = false := by simpa using hc
    cases hm : c.PendedMessages with
    | cons m rest =>
      simp only [hc2, Bool.false_and, Bool.false_eq_true, if_false]
      exact hv
    | nil =>
      simp only [hc2, Bool.false_and, Bool.false_eq_true, if_false]
      intro x hx
      rcases List.mem_append.mp hx with h1 | h1
      · exact hv x h1
      · rw [List.mem_singleton] at h1
        subst h1
        simp [ValidRead, DPT_Read.cleanup, STATUS_PENDING, hmdl, hmap, hsize]

theorem DPT_Read_keeps_valid (L : SIZES) (s : DPT_STATE) (FsContext : Option Nat) (pIrp : IRP)
    (r : READ_RESULT) (hv : RegistryValid L s) (h : DPT_Read L s FsContext pIrp = some r) :
    RegistryValid L r.State := by
  unfold DPT_Read at h
  cases FsContext with
  | none =>
    simp only [Option.some.injEq] at h
    subst h
    exact hv
  | some p =>
    cases hmdl : pIrp.MdlAddress with
    | none =>
      simp only [hmdl, Option.some.injEq] at h
      subst h
      exact hv
    | some mdl =>
      simp only [hmdl] at h
      by_cases hlt : mdl.ByteCount < L.PARSER_MESSAGE
      · simp only [hlt, if_true, Option.some.injEq] at h
        subst h
        exact hv
      · by_cases hmap : mdl.Mapped = true
        · cases hloc : locate (fun c : SUBSCRIPTION_CONTEXT => decide (c.Addr = p))
              s.DptSubscriptions with
          | none => simp [hlt, hmap, hloc] at h
          | some z =>
            obtain ⟨a, c, b⟩ := z
            simp only [hlt, hmap, hloc, if_false, Bool.not_true, Bool.false_eq_true,
              Option.some.injEq] at h
            subst h
            have hl := (locate_some _ _ _ _ _ hloc).1
            have hvc : QueueValid L c := hv c (by rw [hl]; simp)
            intro y hy
            simp only [List.mem_append, List.mem_cons] at hy
            rcases hy with h1 | h1 | h1
            · exact hv y (by rw [hl]; simp [h1])
            · subst h1
              exact DPT_Read.locked_valid L c mdl pIrp hmdl hmap (Nat.le_of_not_lt hlt) hvc
            · exact hv y (by rw [hl]; simp [h1])
        · have hmap2 : mdl.Mapped = false := by simpa using hmap
          simp only [hlt, hmap2, if_false, Bool.not_false, if_true, Option.some.injEq] at h
          subst h
          exact hv

/-! ## The interval handed to the wait -/

/-- The interval of line 228 is never negative, so the wait primitive never reads it
as a relative time. -/
theorem DPT_SynchronouseRequest.Timeout_nonneg (TimeoutMs : Nat) :
    0 ≤ DPT_SynchronouseRequest.Timeout TimeoutMs := by
  unfold DPT_SynchronouseRequest.Timeout
  omega

/-- For a positive TimeoutMs the interval of line 228 is not the relative wait of
TimeoutMs milliseconds. -/
theorem DPT_SynchronouseRequest.Timeout_ne (TimeoutMs : Nat) (h : 0 < TimeoutMs) :
    DPT_SynchronouseRequest.Timeout TimeoutMs ≠ -10000 * (TimeoutMs : Int) := by
  have := DPT_SynchronouseRequest.Timeout_nonneg TimeoutMs
  omega

/-- C13 (timeout length), evaluated where the code departs from it: for
TimeoutMs = 10 the claim asks for the relative interval -100000 (10 ms in 100 ns
units); the code hands 4294967196 to KeWaitForSingleObject, the 32-bit unsigned
product of -10 and 10, which is neither negative nor 10 ms long. -/
theorem DPT_SynchronouseRequest_interval_for_10ms :
    DPT_SynchronouseRequest.Timeout 10 = 4294967196 ∧
    DPT_SynchronouseRequest.Timeout 10 ≠ -10000 * 10 ∧
    0 ≤ DPT_SynchronouseRequest.Timeout 10 ∧
    ∃ r, DPT_SynchronouseRequest sizes0 state0 (msg0 7) (some blank) 10 500 0 nobody = some r ∧
      r.Timeout = some 4294967196 := by
  refine ⟨by decide, by decide, by decide, _, rfl, ?_⟩
  decide

/-! ## DPT_Read with a small buffer -/

/-- C14 (read rejects small buffers): on a file object with a subscriber
(`FsContext = some p`), a read whose MDL is present but describes fewer than
sizeof(PARSER_MESSAGE) bytes is completed at once with STATUS_INVALID_BUFFER_SIZE;
the dispatch state is unchanged (no pended message is consumed, nothing is appended
to PendedReads, both counters keep their values) and the IRP only receives the status. -/
theorem DPT_Read_small_buffer (L : SIZES) (s : DPT_STATE) (p : Nat) (pIrp : IRP) (mdl : MDL)
    (hmdl : pIrp.MdlAddress = some mdl) (hsmall : mdl.ByteCount < L.PARSER_MESSAGE) :
    ∃ r, DPT_Read L s (some p) pIrp = some r ∧ r.Status = STATUS_INVALID_BUFFER_SIZE ∧
      r.Completed = true ∧ r.State = s ∧
      r.Irp = { pIrp with
        IoStatus := { pIrp.IoStatus with Status := STATUS_INVALID_BUFFER_SIZE } } := by
  have hne : STATUS_INVALID_BUFFER_SIZE ≠ STATUS_PENDING := by decide
  have he : DPT_Read L s (some p) pIrp
      = some { State := s,
               Irp := { pIrp with
                 IoStatus := { pIrp.IoStatus with Status := STATUS_INVALID_BUFFER_SIZE } },
               Status := STATUS_INVALID_BUFFER_SIZE, Completed := true } := by
    simp [DPT_Read, hmdl, hsmall, DPT_Read.cleanup, hne]
  exact ⟨_, he, rfl, rfl, rfl, rfl⟩

theorem DPT_Read_small_buffer_witness :
    smallIrp.MdlAddress = some { ByteCount := 15, ByteOffset := 0, Mapped := true, MappedSystemVa := 4096 } ∧
    ({ ByteCount := 15, ByteOffset := 0, Mapped := true, MappedSystemVa := 4096 } : MDL).ByteCount
      < sizes0.PARSER_MESSAGE ∧
    ∃ r, DPT_Read sizes0 state2 (some 100) smallIrp = some r ∧
      r.Status = STATUS_INVALID_BUFFER_SIZE ∧ r.Completed = true ∧ r.State = state2 ∧
      r.Irp = { smallIrp with
        IoStatus := { smallIrp.IoStatus with Status := STATUS_INVALID_BUFFER_SIZE } } :=
  ⟨rfl, by decide,
   DPT_Read_small_buffer sizes0 state2 100 smallIrp
     { ByteCount := 15, ByteOffset := 0, Mapped := true, MappedSystemVa := 4096 } rfl (by decide)⟩

/-! ## CreateSubscription -/

/-- C15 (double registration): IOCTL_VIRTUAL_DISK_CREATE_SUBSCRIPTION with exact
buffer sizes on a file object whose FsContext already refers to a subscriber fails
with STATUS_PIPE_LISTENING; the dispatch state (registry, every context with its
ServicingContext flag and queues, request table) and the FsContext are unchanged. -/
theorem DPT_Control_already_subscribed (L : SIZES) (X : COLLABORATORS) (s : DPT_STATE)
    (pIrp : CONTROL_IRP) (pool : Option Nat) (p : Nat)
    (hcode : pIrp.IoControlCode = IOCTL.VIRTUAL_DISK_CREATE_SUBSCRIPTION)
    (hin : pIrp.InputBufferLength = L.CREATE_SUBSCRIPTION_REQUEST)
    (hout : pIrp.OutputBufferLength = 0) (hfs : pIrp.FsContext = some p) :
    ∃ r, DPT_Control L X s pIrp pool = some r ∧ r.Status = STATUS_PIPE_LISTENING ∧
      r.State = s ∧ r.FsContext = some p ∧ r.Information = 0 ∧ r.Forwarded = [] := by
  have he : DPT_Control L X s pIrp pool
      = some { State := s, FsContext := pIrp.FsContext, Status := STATUS_PIPE_LISTENING,
               Information := 0, Forwarded := [], Stored := none } := by
    simp [DPT_Control, hcode, hin, hout, hfs]
  exact ⟨_, he, rfl, rfl, hfs, rfl, rfl⟩

theorem DPT_Control_already_subscribed_witness :
    (CreateSubscription sizes0 true 100 (some 100)).IoControlCode
      = IOCTL.VIRTUAL_DISK_CREATE_SUBSCRIPTION ∧
    (CreateSubscription sizes0 true 100 (some 100)).InputBufferLength
      = sizes0.CREATE_SUBSCRIPTION_REQUEST ∧
    (CreateSubscription sizes0 true 100 (some 100)).OutputBufferLength = 0 ∧
    (CreateSubscription sizes0 true 100 (some 100)).FsContext = some 100 ∧
    ∃ r, DPT_Control sizes0 idleCollaborators state2
          (CreateSubscription sizes0 true 100 (some 100)) (some 300) = some r ∧
      r.Status = STATUS_PIPE_LISTENING ∧ r.State = state2 ∧ r.FsContext = some 100 ∧
      r.Information = 0 ∧ r.Forwarded = [] :=
  ⟨rfl, rfl, rfl, rfl,
   DPT_Control_already_subscribed sizes0 idleCollaborators state2
     (CreateSubscription sizes0 true 100 (some 100)) (some 300) 100 rfl rfl rfl rfl⟩

/-- C16 (successful registration): IOCTL_VIRTUAL_DISK_CREATE_SUBSCRIPTION with exact
buffer sizes on a file object without subscriber, the pool allocation yielding the
address `p`, returns STATUS_SUCCESS, stores `p` in FsContext and appends at the tail
of the registry a context at `p` with empty PendedReads and PendedMessages, both
counters 0 and the requested ServicingContext; the contexts registered before keep
their place, and DptRequests and the request counter are unchanged. When `p` is not
the address of a context registered before, the file object refers to the new
context. -/
theorem DPT_Control_create_subscription (L : SIZES) (X : COLLABORATORS) (s : DPT_STATE)
    (pIrp : CONTROL_IRP) (p : Nat)
    (hcode : pIrp.IoControlCode = IOCTL.VIRTUAL_DISK_CREATE_SUBSCRIPTION)
    (hin : pIrp.InputBufferLength = L.CREATE_SUBSCRIPTION_REQUEST)
    (hout : pIrp.OutputBufferLength = 0) (hfs : pIrp.FsContext = none) :
    ∃ r, DPT_Control L X s pIrp (some p) = some r ∧ r.Status = STATUS_SUCCESS ∧
      r.FsContext = some p ∧ r.Information = 0 ∧
      r.State.DptSubscriptions = s.DptSubscriptions ++
        [{ Addr := p, pFileObject := pIrp.FileObject, PendedReads := [],
           PendedReadsCount := 0, PendedMessages := [], PendedMessagesCount := 0,
           ServicingContext := pIrp.SystemBuffer.CreateSubscription.Servicing }] ∧
      r.State.DptRequests = s.DptRequests ∧
      r.State.DptRequestCounter = s.DptRequestCounter ∧
      ((∀ c ∈ s.DptSubscriptions, c.Addr ≠ p) →
        subscriber p r.State
          = some { Addr := p, pFileObject := pIrp.FileObject, PendedReads := [],
                   PendedReadsCount := 0, PendedMessages := [], PendedMessagesCount := 0,
                   ServicingContext := pIrp.SystemBuffer.CreateSubscription.Servicing }) := by
  have he : DPT_Control L X s pIrp (some p)
      = some { State := { s with DptSubscriptions := s.DptSubscriptions ++
                  [{ Addr := p, pFileObject := pIrp.FileObject, PendedReads := [],
                     PendedReadsCount := 0, PendedMessages := [], PendedMessagesCount := 0,
                     ServicingContext := pIrp.SystemBuffer.CreateSubscription.Servicing }] },
               FsContext := some p, Status := STATUS_SUCCESS, Information := 0,
               Forwarded := [], Stored := none } := by
    simp [DPT_Control, hcode, hin, hout, hfs]
  refine ⟨_, he, rfl, rfl, rfl, rfl, rfl, rfl, ?_⟩
  intro hnew
  have hl := locate_append (fun c : SUBSCRIPTION_CONTEXT => decide (c.Addr = p))
    s.DptSubscriptions
    { Addr := p, pFileObject := pIrp.FileObject, PendedReads := [],
      PendedReadsCount := 0, PendedMessages := [], PendedMessagesCount := 0,
      ServicingContext := pIrp.SystemBuffer.CreateSubscription.Servicing } []
    (fun c hc => by simpa using hnew c hc) (by simp)
  simp [subscriber, contextAt, hl]

theorem DPT_Control_create_subscription_witness :
    (CreateSubscription sizes0 true 7 none).IoControlCode
      = IOCTL.VIRTUAL_DISK_CREATE_SUBSCRIPTION ∧
    (CreateSubscription sizes0 true 7 none).InputBufferLength
      = sizes0.CREATE_SUBSCRIPTION_REQUEST ∧
    (CreateSubscription sizes0 true 7 none).OutputBufferLength = 0 ∧
    (CreateSubscription sizes0 true 7 none).FsContext = none ∧
    ∃ r, DPT_Control sizes0 idleCollaborators state2 (CreateSubscription sizes0 true 7 none)
          (some 300) = some r ∧ r.Status = STATUS_SUCCESS ∧
      r.FsContext = some 300 ∧ r.Information = 0 ∧
      r.State.DptSubscriptions = state2.DptSubscriptions ++
        [{ Addr := 300, pFileObject := (CreateSubscription sizes0 true 7 none).FileObject,
           PendedReads := [], PendedReadsCount := 0, PendedMessages := [],
           PendedMessagesCount := 0,
           ServicingContext :=
             (CreateSubscription sizes0 true 7 none).SystemBuffer.CreateSubscription.Servicing }] ∧
      r.State.DptRequests = state2.DptRequests ∧
      r.State.DptRequestCounter = state2.DptRequestCounter ∧
      ((∀ c ∈ state2.DptSubscriptions, c.Addr ≠ 300) →
        subscriber 300 r.State
          = some { Addr := 300,
                   pFileObject := (CreateSubscription sizes0 true 7 none).FileObject,
                   PendedReads := [], PendedReadsCount := 0, PendedMessages := [],
                   PendedMessagesCount := 0,
                   ServicingContext :=
                     (CreateSubscription sizes0 true 7 none).SystemBuffer.CreateSubscription.Servicing }) :=
  ⟨rfl, rfl, rfl, rfl,
   DPT_Control_create_subscription sizes0 idleCollaborators state2
     (CreateSubscription sizes0 true 7 none) 300 rfl rfl rfl rfl⟩

/-! ## The size checks of DPT_Control -/

/-- Whenever one of the length tests written in DPT_Control fails, the request ends
with STATUS_INVALID_BUFFER_SIZE and nothing else happens: no collaborator is called
and the dispatch state and FsContext are unchanged. -/
theorem DPT_Control_size_mismatch (L : SIZES) (X : COLLABORATORS) (s : DPT_STATE)
    (pIrp : CONTROL_IRP) (pool : Option Nat)
    (h : (pIrp.IoControlCode = IOCTL.VIRTUAL_DISK_SET_CIPHER ∧
            L.EVHD_SET_CIPHER_CONFIG_REQUEST ≠ pIrp.InputBufferLength) ∨
         (pIrp.IoControlCode = IOCTL.VIRTUAL_DISK_SET_LOGGER ∧
            (L.LOG_SETTINGS ≠ pIrp.InputBufferLength ∨ 0 ≠ pIrp.OutputBufferLength)) ∨
         (pIrp.IoControlCode = IOCTL.VIRTUAL_DISK_GET_LOGGER ∧
            (0 ≠ pIrp.InputBufferLength ∨ L.LOG_SETTINGS ≠ pIrp.OutputBufferLength)) ∨
         (pIrp.IoControlCode = IOCTL.VIRTUAL_DISK_CREATE_SUBSCRIPTION ∧
            (L.CREATE_SUBSCRIPTION_REQUEST ≠ pIrp.InputBufferLength ∨
              0 ≠ pIrp.OutputBufferLength)) ∨
         (pIrp.IoControlCode = IOCTL.VIRTUAL_DISK_FINISH_REQUEST ∧
            (L.PARSER_RESPONSE_MESSAGE ≠ pIrp.InputBufferLength ∨
              0 ≠ pIrp.OutputBufferLength))) :
    DPT_Control L X s pIrp pool
      = some { State := s, FsContext := pIrp.FsContext, Status := STATUS_INVALID_BUFFER_SIZE,
               Information := 0, Forwarded := [], Stored := none } := by
  rcases h with ⟨hc, h1⟩ | ⟨hc, h1⟩ | ⟨hc, h1⟩ | ⟨hc, h1⟩ | ⟨hc, h1⟩ <;>
    simp only [DPT_Control, hc] <;> exact if_pos h1

/-- C17 (size check comes first), evaluated where the code departs from it:
IOCTL_VIRTUAL_DISK_SET_CIPHER with the exact input length but an output buffer of 4
bytes is not rejected; the case of lines 536-546, unlike the four other cases, does
not test OutputBufferLength, so the request is forwarded to SetCipherOpts and ends
with its status. -/
theorem DPT_Control_set_cipher_output_length :
    cipherIrp.InputBufferLength = sizes0.EVHD_SET_CIPHER_CONFIG_REQUEST ∧
    cipherIrp.OutputBufferLength ≠ 0 ∧
    ∃ r, DPT_Control sizes0 idleCollaborators state0 cipherIrp none = some r ∧
      r.Status = STATUS_SUCCESS ∧ r.Status ≠ STATUS_INVALID_BUFFER_SIZE ∧
      r.Forwarded = [FORWARDED.SetCipherOpts cipherIrp.SystemBuffer.SetCipher] := by
  refine ⟨rfl, by decide, _, rfl, ?_, ?_, ?_⟩ <;> decide

/-! ## The cancel routine after DPT_Read -/

/-- A read served from a pended message is completed with the cancel routine of
line 420 still installed. -/
theorem DPT_Read_served_stays_armed (L : SIZES) (s : DPT_STATE) (p : Nat)
    (c : SUBSCRIPTION_CONTEXT) (m : PARSER_MESSAGE) (rest : List PARSER_MESSAGE) (pIrp : IRP)
    (hc : subscriber p s = some c) (hm : c.PendedMessages = m :: rest)
    (hv : ValidRead L pIrp = true) (hcancel : pIrp.Cancel = false) :
    ∃ r, DPT_Read L s (some p) pIrp = some r ∧ r.Status = STATUS_SUCCESS ∧
      r.Completed = true ∧ r.Irp.CancelRoutine = true := by
  obtain ⟨a, b, hloc⟩ := contextAt_some p _ c hc
  unfold ValidRead at hv
  cases hmdl : pIrp.MdlAddress with
  | none => simp [hmdl] at hv
  | some mdl =>
    simp only [hmdl, Bool.and_eq_true, decide_eq_true_eq] at hv
    have hlt : ¬ mdl.ByteCount < L.PARSER_MESSAGE := Nat.not_lt.mpr hv.2
    have hne : STATUS_SUCCESS ≠ STATUS_PENDING := by decide
    have hread : DPT_Read L s (some p) pIrp
        = some { State := { s with DptSubscriptions := a ++
                    { c with PendedMessages := rest,
                             PendedMessagesCount := ulongDec c.PendedMessagesCount } :: b },
                 Irp := { pIrp with
                    CancelRoutine := true,
                    Data := some { Destination := mdl.MappedSystemVa + mdl.ByteOffset,
                                   Source := m,
                                   Length := min mdl.ByteCount L.PARSER_MESSAGE },
                    IoStatus := { Status := STATUS_SUCCESS,
                                  Information := min mdl.ByteCount L.PARSER_MESSAGE } },
                 Status := STATUS_SUCCESS, Completed := true } := by
      simp [DPT_Read, hmdl, hlt, hv.1, hloc, DPT_Read.locked, IoSetCancelRoutine, hcancel, hm,
        DPT_Read.cleanup, hne]
    exact ⟨_, hread, rfl, rfl, rfl⟩

/-- C20 (claim token armed only for queued reads), evaluated where the code departs
from it: a subscriber holds one pended message; DPT_Read with a valid, uncancelled
IRP whose cancel routine was NULL completes the IRP synchronously with
STATUS_SUCCESS, nothing is appended to PendedReads, and the IRP is left with its
cancel routine set. -/
theorem DPT_Read_completes_with_cancel_routine :
    (irp0 1).CancelRoutine = false ∧
    ∃ r, DPT_Read sizes0 state4 (some 100) (irp0 1) = some r ∧
      r.Status = STATUS_SUCCESS ∧ r.Completed = true ∧
      subscriber 100 r.State = some (ctx0 100 false) ∧
      r.Irp.CancelRoutine = true := by
  refine ⟨rfl, _, rfl, ?_, ?_, ?_, ?_⟩ <;> decide

/-! ## DPT_Close -/

theorem DPT_CancelPendingReads_armed_eq (fuel : Nat) (c : SUBSCRIPTION_CONTEXT)
    (harmed : ∀ x ∈ c.PendedReads, x.CancelRoutine = true)
    (hfuel : c.PendedReads.length < fuel) :
    DPT_CancelPendingReads fuel c
      = some ({ c with
          PendedMessages := [],
          PendedMessagesCount := ulongDec^[c.PendedMessages.length] c.PendedMessagesCount,
          PendedReads := [],
          PendedReadsCount := ulongDec^[c.PendedReads.length] c.PendedReadsCount },
        c.PendedReads.map (fun x => { x with
          CancelRoutine := false,
          IoStatus := { Status := STATUS_CANCELLED, Information := 0 } })) := by
  have hr := DPT_CancelPendingReads.reads_armed fuel c.PendedReads c.PendedReadsCount harmed hfuel
  have hm := DPT_CancelPendingReads.messages_eq c.PendedMessages c.PendedMessagesCount
  simp [DPT_CancelPendingReads, hr, hm]

/-- C18 (unregister is idempotent): on a file object whose FsContext refers to the
registered context `c`, none of whose pended reads is being cancelled, DPT_Close
returns STATUS_SUCCESS once the fuel exceeds the number of pended reads; it completes
the pended reads of `c` as cancelled, removes exactly `c` from the registry (the
contexts before and after it keep their order), clears FsContext and leaves
DptRequests and the counter alone. A second DPT_Close on the same file object, and
any DPT_Close on a file object without subscriber, returns STATUS_SUCCESS and leaves
the state exactly as it was. -/
theorem DPT_Close_idempotent (fuel : Nat) (s : DPT_STATE) (p : Nat)
    (c : SUBSCRIPTION_CONTEXT) (hc : subscriber p s = some c)
    (harmed : ∀ x ∈ c.PendedReads, x.CancelRoutine = true)
    (hfuel : c.PendedReads.length < fuel) :
    ∃ a b r, s.DptSubscriptions = a ++ c :: b ∧ (∀ y ∈ a, y.Addr ≠ p) ∧ c.Addr = p ∧
      DPT_Close fuel s (some p) = some r ∧ r.Status = STATUS_SUCCESS ∧
      r.FsContext = none ∧ r.State.DptSubscriptions = a ++ b ∧
      r.State.DptRequests = s.DptRequests ∧
      r.State.DptRequestCounter = s.DptRequestCounter ∧
      r.Completed = c.PendedReads.map (fun x => { x with
        CancelRoutine := false,
        IoStatus := { Status := STATUS_CANCELLED, Information := 0 } }) ∧
      DPT_Close fuel r.State r.FsContext
        = some { State := r.State, FsContext := none, Status := STATUS_SUCCESS,
                 Information := 0, Completed := [] } ∧
      DPT_Close fuel s none
        = some { State := s, FsContext := none, Status := STATUS_SUCCESS,
                 Information := 0, Completed := [] } := by
  obtain ⟨a, b, hloc⟩ := contextAt_some p _ c hc
  obtain ⟨hl, hp, ha⟩ := locate_some _ _ _ _ _ hloc
  have hdrain := DPT_CancelPendingReads_armed_eq fuel c harmed hfuel
  have he : DPT_Close fuel s (some p)
      = some { State := { s with DptSubscriptions := a ++ b }, FsContext := none,
               Status := STATUS_SUCCESS, Information := 0,
               Completed := c.PendedReads.map (fun x => { x with
                 CancelRoutine := false,
                 IoStatus := { Status := STATUS_CANCELLED, Information := 0 } }) } := by
    simp [DPT_Close, hloc, hdrain]
  refine ⟨a, b, _, hl, ?_, by simpa using hp, he, rfl, rfl, rfl, rfl, rfl, rfl, rfl, rfl⟩
  intro y hy
  simpa using ha y hy

theorem DPT_Close_idempotent_witness :
    subscriber 100 state5 = some ctx3 ∧ (∀ x ∈ ctx3.PendedReads, x.CancelRoutine = true) ∧
    ctx3.PendedReads.length < 3 ∧
    ∃ a b r, state5.DptSubscriptions = a ++ ctx3 :: b ∧ (∀ y ∈ a, y.Addr ≠ 100) ∧
      ctx3.Addr = 100 ∧
      DPT_Close 3 state5 (some 100) = some r ∧ r.Status = STATUS_SUCCESS ∧
      r.FsContext = none ∧ r.State.DptSubscriptions = a ++ b ∧
      r.State.DptRequests = state5.DptRequests ∧
      r.State.DptRequestCounter = state5.DptRequestCounter ∧
      r.Completed = ctx3.PendedReads.map (fun x => { x with
        CancelRoutine := false,
        IoStatus := { Status := STATUS_CANCELLED, Information := 0 } }) ∧
      DPT_Close 3 r.State r.FsContext
        = some { State := r.State, FsContext := none, Status := STATUS_SUCCESS,
                 Information := 0, Completed := [] } ∧
      DPT_Close 3 state5 none
        = some { State := state5, FsContext := none, Status := STATUS_SUCCESS,
                 Information := 0, Completed := [] } :=
  ⟨by decide, by decide, by decide,
   DPT_Close_idempotent 3 state5 100 ctx3 (by decide) (by decide) (by decide)⟩

/-! ## The request table after DPT_SynchronouseRequest -/

theorem FinishRequest_unknown (L : SIZES) (X : COLLABORATORS) (s : DPT_STATE)
    (r : PARSER_RESPONSE_MESSAGE) (hstale : ∀ e ∈ s.DptRequests, e.RequestId ≠ r.RequestId) :
    DPT_Control L X s (FinishRequest L r) none
      = some { State := s, FsContext := none, Status := STATUS_INVALID_DEVICE_REQUEST,
               Information := 0, Forwarded := [], Stored := none } := by
  have hl : DPT_FindRequestNoLock s.DptRequests r.RequestId = none := by
    unfold DPT_FindRequestNoLock
    apply locate_eq_none
    intro e he
    simpa using hstale e he
  simp [DPT_Control, FinishRequest, hl]

/-- The call when nothing happens during the wait: the wait times out and the entry
of the call is unlinked again. -/
theorem DPT_SynchronouseRequest_nobody_eq (L : SIZES) (s : DPT_STATE)
    (pRequest : PARSER_MESSAGE) (pResponse : Option PARSER_RESPONSE_MESSAGE)
    (TimeoutMs pEntry : Nat) (SystemTime : Int)
    (a b : List SUBSCRIPTION_CONTEXT) (c c1 : SUBSCRIPTION_CONTEXT) (done : List IRP)
    (hloc : locate (fun c => c.ServicingContext) s.DptSubscriptions = some (a, c, b))
    (hsend : DPT_SendOrQueue L c
      { pRequest with RequestId := InterlockedIncrement s.DptRequestCounter } = some (c1, done))
    (hentry : ∀ e ∈ s.DptRequests, e.Addr ≠ pEntry) :
    DPT_SynchronouseRequest L s pRequest pResponse TimeoutMs pEntry SystemTime nobody
      = some { State := { DptSubscriptions := a ++ c1 :: b, DptRequests := s.DptRequests,
                          DptRequestCounter := InterlockedIncrement s.DptRequestCounter },
               Request := { pRequest with
                 RequestId := InterlockedIncrement s.DptRequestCounter },
               Response := pResponse, Result := true,
               Timeout := some (DPT_SynchronouseRequest.Timeout TimeoutMs),
               WaitStatus := some STATUS_TIMEOUT, Completed := done } := by
  have hissue := DPT_SynchronouseRequest.issue_eq L s pRequest pResponse TimeoutMs pEntry
    SystemTime a b c c1 done hloc hsend
  have hown : locate (fun e : REQUEST_ENTRY => decide (e.Addr = pEntry))
      (s.DptRequests ++
        [{ Addr := pEntry, RequestId := InterlockedIncrement s.DptRequestCounter,
           Event := false, StartTime := SystemTime, pResponse := pResponse }])
      = some (s.DptRequests,
          { Addr := pEntry, RequestId := InterlockedIncrement s.DptRequestCounter,
            Event := false, StartTime := SystemTime, pResponse := pResponse }, []) := by
    apply locate_append
    · intro e he
      simpa using hentry e he
    · simp
  have hto : NT_SUCCESS STATUS_TIMEOUT = true := by decide
  simp only [DPT_SynchronouseRequest, hissue, nobody, hown, KeWaitForSingleObject,
    Bool.false_eq_true, if_false, hto, List.append_nil]

/-- The call when FinishRequest with the assigned id arrives during the wait, no
other registered entry carrying that id: the wait is signaled, the buffer holds the
response and the entry of the call is unlinked again. -/
theorem DPT_SynchronouseRequest_finishing_eq (L : SIZES) (X : COLLABORATORS) (s : DPT_STATE)
    (pRequest : PARSER_MESSAGE) (buffer r : PARSER_RESPONSE_MESSAGE)
    (TimeoutMs pEntry : Nat) (SystemTime : Int)
    (a b : List SUBSCRIPTION_CONTEXT) (c c1 : SUBSCRIPTION_CONTEXT) (done : List IRP)
    (hloc : locate (fun c => c.ServicingContext) s.DptSubscriptions = some (a, c, b))
    (hsend : DPT_SendOrQueue L c
      { pRequest with RequestId := InterlockedIncrement s.DptRequestCounter } = some (c1, done))
    (hentry : ∀ e ∈ s.DptRequests, e.Addr ≠ pEntry)
    (hfresh : ∀ e ∈ s.DptRequests, e.RequestId ≠ InterlockedIncrement s.DptRequestCounter)
    (hid : r.RequestId = InterlockedIncrement s.DptRequestCounter) :
    DPT_SynchronouseRequest L s pRequest (some buffer) TimeoutMs pEntry SystemTime
        (finishing L X r)
      = some { State := { DptSubscriptions := a ++ c1 :: b, DptRequests := s.DptRequests,
                          DptRequestCounter := InterlockedIncrement s.DptRequestCounter },
               Request := { pRequest with
                 RequestId := InterlockedIncrement s.DptRequestCounter },
               Response := some r, Result := true,
               Timeout := some (DPT_SynchronouseRequest.Timeout TimeoutMs),
               WaitStatus := some STATUS_SUCCESS, Completed := done } := by
  have hissue := DPT_SynchronouseRequest.issue_eq L s pRequest (some buffer) TimeoutMs pEntry
    SystemTime a b c c1 done hloc hsend
  have hfind : DPT_FindRequestNoLock
      (s.DptRequests ++
        [{ Addr := pEntry, RequestId := InterlockedIncrement s.DptRequestCounter,
           Event := false, StartTime := SystemTime, pResponse := some buffer }])
      r.RequestId
      = some (s.DptRequests,
          { Addr := pEntry, RequestId := InterlockedIncrement s.DptRequestCounter,
            Event := false, StartTime := SystemTime, pResponse := some buffer }, []) := by
    unfold DPT_FindRequestNoLock
    apply locate_append
    · intro e he
      simpa [hid] using hfresh e he
    · simp [hid]
  have hctl : DPT_Control L X
      { DptSubscriptions := a ++ c1 :: b,
        DptRequests := s.DptRequests ++
          [{ Addr := pEntry, RequestId := InterlockedIncrement s.DptRequestCounter,
             Event := false, StartTime := SystemTime, pResponse := some buffer }],
        DptRequestCounter := InterlockedIncrement s.DptRequestCounter }
      (FinishRequest L r) none
      = some { State :=
                { DptSubscriptions := a ++ c1 :: b,
                  DptRequests := s.DptRequests ++
                    [{ Addr := pEntry, RequestId := InterlockedIncrement s.DptRequestCounter,
                       Event := true, StartTime := SystemTime, pResponse := some r }],
                  DptRequestCounter := InterlockedIncrement s.DptRequestCounter },
               FsContext := none, Status := STATUS_SUCCESS, Information := 0,
               Forwarded := [], Stored := none } := by
    simp [DPT_Control, FinishRequest, hfind]
  have hown : locate (fun e : REQUEST_ENTRY => decide (e.Addr = pEntry))
      (s.DptRequests ++
        [{ Addr := pEntry, RequestId := InterlockedIncrement s.DptRequestCounter,
           Event := true, StartTime := SystemTime, pResponse := some r }])
      = some (s.DptRequests,
          { Addr := pEntry, RequestId := InterlockedIncrement s.DptRequestCounter,
            Event := true, StartTime := SystemTime, pResponse := some r }, []) := by
    apply locate_append
    · intro e he
      simpa using hentry e he
    · simp
  have hsucc : NT_SUCCESS STATUS_SUCCESS = true := by decide
  simp only [DPT_SynchronouseRequest, hissue, finishing, hctl, hown, KeWaitForSingleObject,
    if_true, hsucc, List.append_nil]

/-- C11 as stated fails on `state3`, where an older entry with RequestId 1 is still
registered: the call is given RequestId 1, times out and unlinks its own entry, and a
FinishRequest issued afterwards with RequestId 1 still finds the older entry and
returns STATUS_SUCCESS. -/
theorem FinishRequest_after_call_collision :
    ∃ res k,
      DPT_SynchronouseRequest sizes0 state3 (msg0 7) (some blank) 10 500 0 nobody = some res ∧
      res.Request.RequestId = (resp0 1).RequestId ∧
      res.State.DptRequests = state3.DptRequests ∧
      DPT_Control sizes0 idleCollaborators res.State (FinishRequest sizes0 (resp0 1)) none
        = some k ∧
      k.Status = STATUS_SUCCESS ∧ k.Status ≠ STATUS_INVALID_DEVICE_REQUEST := by
  refine ⟨_, _, rfl, ?_, ?_, rfl, ?_, ?_⟩ <;> decide

theorem Forall₂_mem_left {α β : Type} (R : α → β → Prop) (l1 : List α) (l2 : List β)
    (h : List.Forall₂ R l1 l2) : ∀ x ∈ l1, ∃ y ∈ l2, R x y := by
  induction h with
  | nil => intro x hx; simp at hx
  | cons hr _ ih =>
    intro x hx
    rcases List.mem_cons.mp hx with hx | hx
    · subst hx
      exact ⟨_, List.mem_cons_self _ _, hr⟩
    · obtain ⟨y, hy, hxy⟩ := ih x hx
      exact ⟨y, List.mem_cons_of_mem _ hy, hxy⟩

/-- C11 amended (call always deregisters its request): take any registry with valid
pended reads and a servicing subscriber, the RequestEntry of the call being a fresh
object, and any behaviour `during` of the other threads while the caller is blocked
that links and unlinks no entry (they may signal and fill entries, that of the call
included): when the lock is taken again the table is `old ++ [e]`, `e` being the
entry of the call and `old` the entries registered before it, with their addresses
and ids. Then DPT_SynchronouseRequest returns, whether the wait was signaled or timed
out (`e.Event`); on return the table is `old`, it holds no entry at the address of the
call, and it is the table before the call when the other threads touched no other
entry. Provided no entry registered before the call carries the id assigned to it, a
FinishRequest issued afterwards with that id returns STATUS_INVALID_DEVICE_REQUEST
and changes nothing. -/
theorem DPT_SynchronouseRequest_deregisters (L : SIZES) (X : COLLABORATORS) (s : DPT_STATE)
    (pRequest : PARSER_MESSAGE) (pResponse : Option PARSER_RESPONSE_MESSAGE)
    (TimeoutMs pEntry : Nat) (SystemTime : Int) (during : DPT_STATE → Option DPT_STATE)
    (old : List REQUEST_ENTRY) (e : REQUEST_ENTRY)
    (hv : RegistryValid L s) (hs : ∃ c ∈ s.DptSubscriptions, c.ServicingContext = true)
    (hentry : ∀ x ∈ s.DptRequests, x.Addr ≠ pEntry)
    (hold : List.Forall₂ (fun x y => x.Addr = y.Addr ∧ x.RequestId = y.RequestId)
      old s.DptRequests)
    (he : e.Addr = pEntry)
    (hduring : ∀ s1 req t done,
      DPT_SynchronouseRequest.issue L s pRequest pResponse TimeoutMs pEntry SystemTime
        = some (some (s1, req, t, done)) →
      ∃ s2, during s1 = some s2 ∧ s2.DptRequests = old ++ [e]) :
    ∃ res,
      DPT_SynchronouseRequest L s pRequest pResponse TimeoutMs pEntry SystemTime during
        = some res ∧
      res.WaitStatus = some (if e.Event then STATUS_SUCCESS else STATUS_TIMEOUT) ∧
      res.Request.RequestId = InterlockedIncrement s.DptRequestCounter ∧
      res.State.DptRequests = old ∧
      (∀ x ∈ res.State.DptRequests, x.Addr ≠ pEntry) ∧
      (old = s.DptRequests → res.State.DptRequests = s.DptRequests) ∧
      ∀ r : PARSER_RESPONSE_MESSAGE, r.RequestId = res.Request.RequestId →
        (∀ x ∈ s.DptRequests, x.RequestId ≠ r.RequestId) →
        ∃ k, DPT_Control L X res.State (FinishRequest L r) none = some k ∧
          k.Status = STATUS_INVALID_DEVICE_REQUEST ∧ k.State = res.State := by
  obtain ⟨a, c, b, hloc⟩ := locate_of_mem (fun c : SUBSCRIPTION_CONTEXT => c.ServicingContext) _ hs
  have hvc : QueueValid L c := hv c (by rw [(locate_some _ _ _ _ _ hloc).1]; simp)
  obtain ⟨c1, done, hsend, _⟩ := DPT_SendOrQueue_outcome L c
    { pRequest with RequestId := InterlockedIncrement s.DptRequestCounter } hvc
  have hissue := DPT_SynchronouseRequest.issue_eq L s pRequest pResponse TimeoutMs pEntry
    SystemTime a b c c1 done hloc hsend
  obtain ⟨s2, hd, hreq⟩ := hduring _ _ _ _ hissue
  have hmem := Forall₂_mem_left _ old s.DptRequests hold
  have haddr : ∀ x ∈ old, x.Addr ≠ pEntry := by
    intro x hx
    obtain ⟨y, hy, h1, _⟩ := hmem x hx
    rw [h1]
    exact hentry y hy
  have hown : locate (fun x : REQUEST_ENTRY => decide (x.Addr = pEntry)) (old ++ [e])
      = some (old, e, []) := by
    apply locate_append
    · intro x hx
      simpa using haddr x hx
    · simpa using he
  have hcall : DPT_SynchronouseRequest L s pRequest pResponse TimeoutMs pEntry SystemTime during
      = some { State := { s2 with DptRequests := old },
               Request := { pRequest with
                 RequestId := InterlockedIncrement s.DptRequestCounter },
               Response := e.pResponse,
               Result := NT_SUCCESS (KeWaitForSingleObject e.Event
                 (DPT_SynchronouseRequest.Timeout TimeoutMs)),
               Timeout := some (DPT_SynchronouseRequest.Timeout TimeoutMs),
               WaitStatus := some (KeWaitForSingleObject e.Event
                 (DPT_SynchronouseRequest.Timeout TimeoutMs)),
               Completed := done } := by
    simp only [DPT_SynchronouseRequest, hissue, hd, hreq, hown, List.append_nil]
  refine ⟨_, hcall, rfl, rfl, rfl, haddr, fun h => h, ?_⟩
  intro r hid hfresh
  have hstale : ∀ x ∈ old, x.RequestId ≠ r.RequestId := by
    intro x hx
    obtain ⟨y, hy, _, h2⟩ := hmem x hx
    rw [h2]
    exact hfresh y hy
  exact ⟨_, FinishRequest_unknown L X { s2 with DptRequests := old } r hstale, rfl, rfl⟩

/-- In `state3`, where the id about to be assigned is still registered, nothing
happens while the caller is blocked: the table is then the old one and the entry of
the call, not signaled. -/
theorem nobody_during_state3 :
    ∀ s1 req t done,
      DPT_SynchronouseRequest.issue sizes0 state3 (msg0 7) (some blank) 10 500 0
        = some (some (s1, req, t, done)) →
      ∃ s2, nobody s1 = some s2 ∧
        s2.DptRequests = state3.DptRequests ++
          [{ Addr := 500, RequestId := 1, Event := false, StartTime := 0,
             pResponse := some blank }] := by
  intro s1 req t done h
  cases h
  exact ⟨_, rfl, by decide⟩

/-- In `state7` a FinishRequest with the assigned id 6 arrives while the caller is
blocked: the table is then the old one and the entry of the call, signaled and
filled. -/
theorem finishing_during_state7 :
    ∀ s1 req t done,
      DPT_SynchronouseRequest.issue sizes0 state7 (msg0 7) (some blank) 10 500 0
        = some (some (s1, req, t, done)) →
      ∃ s2, finishing sizes0 idleCollaborators (resp0 6) s1 = some s2 ∧
        s2.DptRequests = state7.DptRequests ++
          [{ Addr := 500, RequestId := 6, Event := true, StartTime := 0,
             pResponse := some (resp0 6) }] := by
  intro s1 req t done h
  cases h
  exact ⟨_, rfl, by decide⟩

/-- In `state3` a FinishRequest with the assigned id 1 arrives while the caller is
blocked: it signals and fills the older entry that carries the same id, and the
entry of the call stays as it was registered. -/
theorem finishing_during_state3 :
    ∀ s1 req t done,
      DPT_SynchronouseRequest.issue sizes0 state3 (msg0 7) (some blank) 10 500 0
        = some (some (s1, req, t, done)) →
      ∃ s2, finishing sizes0 idleCollaborators (resp0 1) s1 = some s2 ∧
        s2.DptRequests = [{ entry0 400 1 with Event := true, pResponse := some (resp0 1) }] ++
          [{ Addr := 500, RequestId := 1, Event := false, StartTime := 0,
             pResponse := some blank }] := by
  intro s1 req t done h
  cases h
  exact ⟨_, rfl, by decide⟩

theorem DPT_SynchronouseRequest_deregisters_witness :
    (RegistryValid sizes0 state7 ∧
     (∃ c ∈ state7.DptSubscriptions, c.ServicingContext = true) ∧
     (∀ x ∈ state7.DptRequests, x.Addr ≠ 500) ∧
     ∃ res,
      DPT_SynchronouseRequest sizes0 state7 (msg0 7) (some blank) 10 500 0
        (finishing sizes0 idleCollaborators (resp0 6)) = some res ∧
      res.WaitStatus = some (if true then STATUS_SUCCESS else STATUS_TIMEOUT) ∧
      res.Request.RequestId = InterlockedIncrement state7.DptRequestCounter ∧
      res.State.DptRequests = state7.DptRequests ∧
      (∀ x ∈ res.State.DptRequests, x.Addr ≠ 500) ∧
      (state7.DptRequests = state7.DptRequests →
        res.State.DptRequests = state7.DptRequests) ∧
      ∀ r : PARSER_RESPONSE_MESSAGE, r.RequestId = res.Request.RequestId →
        (∀ x ∈ state7.DptRequests, x.RequestId ≠ r.RequestId) →
        ∃ k, DPT_Control sizes0 idleCollaborators res.State (FinishRequest sizes0 r) none
            = some k ∧
          k.Status = STATUS_INVALID_DEVICE_REQUEST ∧ k.State = res.State) ∧
    (RegistryValid sizes0 state3 ∧
     (∃ c ∈ state3.DptSubscriptions, c.ServicingContext = true) ∧
     (∀ x ∈ state3.DptRequests, x.Addr ≠ 500) ∧
     ∃ res,
      DPT_SynchronouseRequest sizes0 state3 (msg0 7) (some blank) 10 500 0 nobody
        = some res ∧
      res.WaitStatus = some (if false then STATUS_SUCCESS else STATUS_TIMEOUT) ∧
      res.Request.RequestId = InterlockedIncrement state3.DptRequestCounter ∧
      res.State.DptRequests = state3.DptRequests ∧
      (∀ x ∈ res.State.DptRequests, x.Addr ≠ 500) ∧
      (state3.DptRequests = state3.DptRequests →
        res.State.DptRequests = state3.DptRequests) ∧
      ∀ r : PARSER_RESPONSE_MESSAGE, r.RequestId = res.Request.RequestId →
        (∀ x ∈ state3.DptRequests, x.RequestId ≠ r.RequestId) →
        ∃ k, DPT_Control sizes0 idleCollaborators res.State (FinishRequest sizes0 r) none
            = some k ∧
          k.Status = STATUS_INVALID_DEVICE_REQUEST ∧ k.State = res.State) ∧
    (∃ res,
      DPT_SynchronouseRequest sizes0 state3 (msg0 7) (some blank) 10 500 0
        (finishing sizes0 idleCollaborators (resp0 1)) = some res ∧
      res.WaitStatus = some (if false then STATUS_SUCCESS else STATUS_TIMEOUT) ∧
      res.Request.RequestId = InterlockedIncrement state3.DptRequestCounter ∧
      res.State.DptRequests
        = [{ entry0 400 1 with Event := true, pResponse := some (resp0 1) }] ∧
      (∀ x ∈ res.State.DptRequests, x.Addr ≠ 500) ∧
      ([{ entry0 400 1 with Event := true, pResponse := some (resp0 1) }]
          = state3.DptRequests →
        res.State.DptRequests = state3.DptRequests) ∧
      ∀ r : PARSER_RESPONSE_MESSAGE, r.RequestId = res.Request.RequestId →
        (∀ x ∈ state3.DptRequests, x.RequestId ≠ r.RequestId) →
        ∃ k, DPT_Control sizes0 idleCollaborators res.State (FinishRequest sizes0 r) none
            = some k ∧
          k.Status = STATUS_INVALID_DEVICE_REQUEST ∧ k.State = res.State) :=
  ⟨⟨by unfold RegistryValid QueueValid; decide, by decide, by decide,
    DPT_SynchronouseRequest_deregisters sizes0 idleCollaborators state7 (msg0 7) (some blank)
      10 500 0 (finishing sizes0 idleCollaborators (resp0 6)) state7.DptRequests
      { Addr := 500, RequestId := 6, Event := true, StartTime := 0,
        pResponse := some (resp0 6) }
      (by unfold RegistryValid QueueValid; decide) (by decide) (by decide)
      (List.Forall₂.cons ⟨rfl, rfl⟩ (List.Forall₂.cons ⟨rfl, rfl⟩ List.Forall₂.nil)) rfl
      finishing_during_state7⟩,
   ⟨by unfold RegistryValid QueueValid; decide, by decide, by decide,
    DPT_SynchronouseRequest_deregisters sizes0 idleCollaborators state3 (msg0 7) (some blank)
      10 500 0 nobody state3.DptRequests
      { Addr := 500, RequestId := 1, Event := false, StartTime := 0, pResponse := some blank }
      (by unfold RegistryValid QueueValid; decide) (by decide) (by decide)
      (List.Forall₂.cons ⟨rfl, rfl⟩ List.Forall₂.nil) rfl nobody_during_state3⟩,
   DPT_SynchronouseRequest_deregisters sizes0 idleCollaborators state3 (msg0 7) (some blank)
     10 500 0 (finishing sizes0 idleCollaborators (resp0 1))
     [{ entry0 400 1 with Event := true, pResponse := some (resp0 1) }]
     { Addr := 500, RequestId := 1, Event := false, StartTime := 0, pResponse := some blank }
     (by unfold RegistryValid QueueValid; decide) (by decide) (by decide)
     (List.Forall₂.cons ⟨rfl, rfl⟩ List.Forall₂.nil) rfl finishing_during_state3⟩

/-! ## The request ids -/

theorem Quiet_replace (a b : List SUBSCRIPTION_CONTEXT) (c c1 : SUBSCRIPTION_CONTEXT)
    (h : Quiet (a ++ c :: b)) (h1 : Exclusive c1 ∧ Armed c1) : Quiet (a ++ c1 :: b) := by
  intro y hy
  simp only [List.mem_append, List.mem_cons] at hy
  rcases hy with hy | hy | hy
  · exact h y (by simp [hy])
  · subst hy; exact h1
  · exact h y (by simp [hy])

theorem Quiet_remove (a b : List SUBSCRIPTION_CONTEXT) (c : SUBSCRIPTION_CONTEXT)
    (h : Quiet (a ++ c :: b)) : Quiet (a ++ b) := by
  intro y hy
  simp only [List.mem_append] at hy
  rcases hy with hy | hy
  · exact h y (by simp [hy])
  · exact h y (by simp [hy])

theorem DPT_SendOrQueue_keeps_quiet (L : SIZES) (c c1 : SUBSCRIPTION_CONTEXT)
    (m : PARSER_MESSAGE) (done : List IRP) (hq : Exclusive c ∧ Armed c)
    (h : DPT_SendOrQueue L c m = some (c1, done)) : Exclusive c1 ∧ Armed c1 := by
  obtain ⟨hex, harm⟩ := hq
  cases hr : c.PendedReads with
  | nil =>
    have hq := DPT_SendOrQueue_queued L c m (by rw [hr]; simp)
    rw [hq] at h
    simp only [Option.some.injEq, Prod.mk.injEq] at h
    obtain ⟨e1, _⟩ := h
    subst e1
    exact ⟨Or.inl hr, by intro x hx; rw [show _ = c.PendedReads from rfl, hr] at hx; simp at hx⟩
  | cons x rest =>
    have hx : x.CancelRoutine = true := harm x (by rw [hr]; simp)
    have hmsg : c.PendedMessages = [] := by
      rcases hex with h1 | h1
      · rw [hr] at h1; simp at h1
      · exact h1
    have hs := DPT_SendMessage.scan_some [] x rest (by simp) hx
    simp only [List.nil_append] at hs
    have hne : c.PendedReads.isEmpty = false := by rw [hr]; rfl
    unfold DPT_SendOrQueue DPT_SendMessage at h
    simp only [hne, hr, hs, Bool.false_eq_true, if_false] at h
    cases hmdl : x.MdlAddress with
    | none => simp [hmdl] at h
    | some mdl =>
      by_cases hmap : mdl.Mapped = true
      · simp [hmdl, hmap] at h
        obtain ⟨e1, _⟩ := h
        subst e1
        refine ⟨Or.inr hmsg, ?_⟩
        intro y hy
        exact harm y (by rw [hr]; exact List.mem_cons_of_mem _ hy)
      · simp [hmdl, hmap] at h

theorem DPT_QueueMessage.loop_keeps_quiet (L : SIZES) (m : PARSER_MESSAGE)
    (subs : List SUBSCRIPTION_CONTEXT) :
    ∀ (subs1 : List SUBSCRIPTION_CONTEXT) (done : List IRP), Quiet subs →
      DPT_QueueMessage.loop L m subs = some (subs1, done) → Quiet subs1 := by
  induction subs with
  | nil =>
    intro subs1 done _ h
    simp [DPT_QueueMessage.loop] at h
    rw [h.1]
    intro y hy
    simp at hy
  | cons c rest ih =>
    intro subs1 done hq h
    unfold DPT_QueueMessage.loop at h
    cases hs : DPT_SendOrQueue L c m with
    | none => simp [hs] at h
    | some o =>
      obtain ⟨c1, d1⟩ := o
      cases hl : DPT_QueueMessage.loop L m rest with
      | none => simp [hs, hl] at h
      | some o2 =>
        obtain ⟨rest1, d2⟩ := o2
        simp [hs, hl] at h
        rw [← h.1]
        have hc1 := DPT_SendOrQueue_keeps_quiet L c c1 m d1 (hq c (List.mem_cons_self _ _)) hs
        have hrest := ih rest1 d2 (fun y hy => hq y (List.mem_cons_of_mem _ hy)) hl
        intro y hy
        rcases List.mem_cons.mp hy with rfl | hy2
        · exact hc1
        · exact hrest y hy2

theorem DPT_Read.locked_keeps_quiet (L : SIZES) (c : SUBSCRIPTION_CONTEXT) (mdl : MDL)
    (pIrp : IRP) (hq : Exclusive c ∧ Armed c) :
    Exclusive (DPT_Read.locked L c mdl pIrp).1 ∧ Armed (DPT_Read.locked L c mdl pIrp).1 := by
  obtain ⟨hex, harm⟩ := hq
  unfold DPT_Read.locked
  simp only [IoSetCancelRoutine]
  by_cases hc : pIrp.Cancel = true
  · simpa [hc] using ⟨hex, harm⟩
  · have hc2 : pIrp.Cancel = false := by simpa using hc
    cases hm : c.PendedMessages with
    | cons m rest =>
      simp only [hc2, Bool.false_and, Bool.false_eq_true, if_false]
      have hr : c.PendedReads = [] := by
        rcases hex with h1 | h1
        · exact h1
        · rw [hm] at h1; simp at h1
      exact ⟨Or.inl hr, harm⟩
    | nil =>
      simp only [hc2, Bool.false_and, Bool.false_eq_true, if_false]
      refine ⟨Or.inr rfl, ?_⟩
      intro x hx
      rcases List.mem_append.mp hx with h1 | h1
      · exact harm x h1
      · rw [List.mem_singleton] at h1
        subst h1
        simp [DPT_Read.cleanup, STATUS_PENDING]

theorem DPT_Read_keeps_quiet (L : SIZES) (s : DPT_STATE) (FsContext : Option Nat) (pIrp : IRP)
    (r : READ_RESULT) (hq : Quiet s.DptSubscriptions)
    (h : DPT_Read L s FsContext pIrp = some r) : Quiet r.State.DptSubscriptions := by
  unfold DPT_Read at h
  cases FsContext with
  | none =>
    simp only [Option.some.injEq] at h
    subst h
    exact hq
  | some p =>
    cases hmdl : pIrp.MdlAddress with
    | none =>
      simp only [hmdl, Option.some.injEq] at h
      subst h
      exact hq
    | some mdl =>
      simp only [hmdl] at h
      by_cases hlt : mdl.ByteCount < L.PARSER_MESSAGE
      · simp only [hlt, if_true, Option.some.injEq] at h
        subst h
        exact hq
      · by_cases hmap : mdl.Mapped = true
        · cases hloc : locate (fun c : SUBSCRIPTION_CONTEXT => decide (c.Addr = p))
              s.DptSubscriptions with
          | none => simp [hlt, hmap, hloc] at h
          | some z =>
            obtain ⟨a, c, b⟩ := z
            simp only [hlt, hmap, hloc, if_false, Bool.not_true, Bool.false_eq_true,
              Option.some.injEq] at h
            subst h
            have hl := (locate_some _ _ _ _ _ hloc).1
            rw [hl] at hq
            exact Quiet_replace a b c _ hq
              (DPT_Read.locked_keeps_quiet L c mdl pIrp (hq c (by simp)))
        · have hmap2 : mdl.Mapped = false := by simpa using hmap
          simp only [hlt, hmap2, if_false, Bool.not_false, if_true, Option.some.injEq] at h
          subst h
          exact hq

theorem Quiet_append_new (subs : List SUBSCRIPTION_CONTEXT) (p f : Nat) (sv : Bool)
    (hq : Quiet subs) :
    Quiet (subs ++
      [{ Addr := p, pFileObject := f, PendedReads := [], PendedReadsCount := 0,
         PendedMessages := [], PendedMessagesCount := 0, ServicingContext := sv }]) := by
  intro y hy
  rcases List.mem_append.mp hy with h1 | h1
  · exact hq y h1
  · rw [List.mem_singleton] at h1
    subst h1
    exact ⟨Or.inl rfl, by intro x hx; simp at hx⟩

theorem DPT_Control_keeps_quiet (L : SIZES) (X : COLLABORATORS) (s : DPT_STATE)
    (pIrp : CONTROL_IRP) (pool : Option Nat) (k : CONTROL_RESULT)
    (hq : Quiet s.DptSubscriptions) (h : DPT_Control L X s pIrp pool = some k) :
    Quiet k.State.DptSubscriptions := by
  unfold DPT_Control at h
  split at h
  · split at h <;> (simp only [Option.some.injEq] at h; subst h; exact hq)
  · split at h <;> (simp only [Option.some.injEq] at h; subst h; exact hq)
  · split at h <;> (simp only [Option.some.injEq] at h; subst h; exact hq)
  · split at h
    · simp only [Option.some.injEq] at h; subst h; exact hq
    · split at h
      · simp only [Option.some.injEq] at h; subst h; exact hq
      · split at h
        · simp only [Option.some.injEq] at h; subst h; exact hq
        · simp only [Option.some.injEq] at h
          subst h
          exact Quiet_append_new _ _ _ _ hq
  · split at h
    · simp only [Option.some.injEq] at h; subst h; exact hq
    · simp only at h
      cases hf : DPT_FindRequestNoLock s.DptRequests pIrp.SystemBuffer.Response.RequestId with
      | none =>
        simp only [hf, Option.some.injEq] at h
        subst h
        exact hq
      | some z =>
        obtain ⟨a, e, b⟩ := z
        simp only [hf] at h
        cases he : e.pResponse with
        | none => simp [he] at h
        | some v =>
          simp only [he, Option.some.injEq] at h
          subst h
          exact hq
  · simp only [Option.some.injEq] at h; subst h; exact hq

theorem DPT_SynchronouseRequest.issue_keeps_quiet (L : SIZES) (s : DPT_STATE)
    (pRequest : PARSER_MESSAGE) (pResponse : Option PARSER_RESPONSE_MESSAGE)
    (TimeoutMs pEntry : Nat) (SystemTime : Int) (s1 : DPT_STATE) (req : PARSER_MESSAGE)
    (t : Int) (done : List IRP) (hq : Quiet s.DptSubscriptions)
    (h : DPT_SynchronouseRequest.issue L s pRequest pResponse TimeoutMs pEntry SystemTime
          = some (some (s1, req, t, done))) : Quiet s1.DptSubscriptions := by
  unfold DPT_SynchronouseRequest.issue at h
  cases hloc : locate (fun c : SUBSCRIPTION_CONTEXT => c.ServicingContext) s.DptSubscriptions with
  | none => simp [hloc] at h
  | some z =>
    obtain ⟨a, c, b⟩ := z
    simp only [hloc] at h
    cases hs : DPT_SendOrQueue L c
        { pRequest with RequestId := InterlockedIncrement s.DptRequestCounter } with
    | none => simp [hs] at h
    | some o =>
      obtain ⟨c1, d1⟩ := o
      simp only [hs, Option.some.injEq, Prod.mk.injEq] at h
      obtain ⟨e1, _⟩ := h
      subst e1
      have hl := (locate_some _ _ _ _ _ hloc).1
      rw [hl] at hq
      exact Quiet_replace a b c c1 hq
        (DPT_SendOrQueue_keeps_quiet L c c1 _ d1 (hq c (by simp)) hs)

theorem DPT_ReadCancel_keeps_quiet (s : DPT_STATE) (pIrp : IRP) (s1 : DPT_STATE) (pIrp1 : IRP)
    (hq : Quiet s.DptSubscriptions) (h : DPT_ReadCancel s pIrp = some (s1, pIrp1)) :
    Quiet s1.DptSubscriptions := by
  unfold DPT_ReadCancel at h
  cases hd : pIrp.DriverContext0 with
  | none => simp [hd] at h
  | some p =>
    simp only [hd] at h
    cases hloc : locate (fun c : SUBSCRIPTION_CONTEXT => decide (c.Addr = p))
        s.DptSubscriptions with
    | none => simp [hloc] at h
    | some z =>
      obtain ⟨a, c, b⟩ := z
      simp only [hloc] at h
      cases hi : locate (fun x : IRP => decide (x.Addr = pIrp.Addr)) c.PendedReads with
      | none => simp [hi] at h
      | some w =>
        obtain ⟨front, x, back⟩ := w
        simp only [hi, Option.some.injEq, Prod.mk.injEq] at h
        obtain ⟨e1, _⟩ := h
        subst e1
        have hl := (locate_some _ _ _ _ _ hloc).1
        have hr := (locate_some _ _ _ _ _ hi).1
        rw [hl] at hq
        obtain ⟨hex, harm⟩ := hq c (by simp)
        refine Quiet_replace a b c _ hq ⟨?_, ?_⟩
        · rcases hex with h1 | h1
          · rw [hr] at h1; simp at h1
          · exact Or.inr h1
        · intro y hy
          apply harm y
          rw [hr]
          simp only [List.mem_append, List.mem_cons] at hy ⊢
          tauto

theorem DPT_CancelPendingReads.reads_empty (fuel : Nat) :
    ∀ (l : List IRP) (n : Nat) (q : List IRP) (m : Nat) (done : List IRP),
      DPT_CancelPendingReads.reads fuel l n = some (q, m, done) → q = [] := by
  induction fuel with
  | zero =>
    intro l n q m done h
    simp [DPT_CancelPendingReads.reads] at h
  | succ f ih =>
    intro l n q m done h
    cases l with
    | nil =>
      simp [DPT_CancelPendingReads.reads] at h
      exact h.1
    | cons x rest =>
      unfold DPT_CancelPendingReads.reads at h
      simp only [IoSetCancelRoutine] at h
      by_cases hx : x.CancelRoutine = true
      · simp only [hx, if_true] at h
        cases hr : DPT_CancelPendingReads.reads f rest (ulongDec n) with
        | none => simp [hr] at h
        | some o =>
          obtain ⟨q2, m2, d2⟩ := o
          simp only [hr, Option.some.injEq, Prod.mk.injEq] at h
          rw [← h.1]
          exact ih rest (ulongDec n) q2 m2 d2 hr
      · have hx2 : x.CancelRoutine = false := by simpa using hx
        simp only [hx2, Bool.false_eq_true, if_false] at h
        exact ih _ n q m done h

theorem DPT_CancelPendingReads_empties (fuel : Nat) (c c1 : SUBSCRIPTION_CONTEXT)
    (done : List IRP) (h : DPT_CancelPendingReads fuel c = some (c1, done)) :
    c1.PendedReads = [] ∧ c1.PendedMessages = [] := by
  unfold DPT_CancelPendingReads at h
  cases hr : DPT_CancelPendingReads.reads fuel c.PendedReads c.PendedReadsCount with
  | none => simp [hr] at h
  | some o =>
    obtain ⟨q, n, d⟩ := o
    simp only [hr, Option.some.injEq, Prod.mk.injEq] at h
    obtain ⟨e1, _⟩ := h
    subst e1
    have hq := DPT_CancelPendingReads.reads_empty fuel _ _ _ _ _ hr
    have hm := DPT_CancelPendingReads.messages_eq c.PendedMessages c.PendedMessagesCount
    exact ⟨hq, by simp [hm]⟩

theorem DPT_Close_keeps_quiet (fuel : Nat) (s : DPT_STATE) (FsContext : Option Nat)
    (r : CLOSE_RESULT) (hq : Quiet s.DptSubscriptions)
    (h : DPT_Close fuel s FsContext = some r) : Quiet r.State.DptSubscriptions := by
  unfold DPT_Close at h
  cases FsContext with
  | none =>
    simp only [Option.some.injEq] at h
    subst h
    exact hq
  | some p =>
    simp only at h
    cases hloc : locate (fun c : SUBSCRIPTION_CONTEXT => decide (c.Addr = p))
        s.DptSubscriptions with
    | none => simp [hloc] at h
    | some z =>
      obtain ⟨a, c, b⟩ := z
      simp only [hloc] at h
      cases hd : DPT_CancelPendingReads fuel c with
      | none => simp [hd] at h
      | some o =>
        simp only [hd, Option.some.injEq] at h
        subst h
        have hl := (locate_some _ _ _ _ _ hloc).1
        rw [hl] at hq
        exact Quiet_remove a b c hq

theorem Step_keeps_quiet (L : SIZES) (X : COLLABORATORS) (s s1 : DPT_STATE)
    (hq : Quiet s.DptSubscriptions) (h : Step L X s s1) : Quiet s1.DptSubscriptions := by
  cases h with
  | control pIrp pool k hk => exact DPT_Control_keeps_quiet L X s pIrp pool k hq hk
  | read fs pIrp r hr => exact DPT_Read_keeps_quiet L s fs pIrp r hq hr
  | publish m s2 done hp =>
    unfold DPT_QueueMessage at hp
    cases hl : DPT_QueueMessage.loop L m s.DptSubscriptions with
    | none => simp [hl] at hp
    | some o =>
      obtain ⟨subs1, d⟩ := o
      simp only [hl, Option.some.injEq, Prod.mk.injEq] at hp
      rw [← hp.1]
      exact DPT_QueueMessage.loop_keeps_quiet L m _ subs1 d hq hl
  | dispatch pRequest pResponse TimeoutMs pEntry SystemTime s2 req t done hi =>
    exact DPT_SynchronouseRequest.issue_keeps_quiet L s pRequest pResponse TimeoutMs pEntry
      SystemTime s1 req t done hq hi
  | callReturn pEntry a e b _ => exact hq
  | cancel pIrp s2 pIrp1 hc => exact DPT_ReadCancel_keeps_quiet s pIrp s1 pIrp1 hq hc
  | teardown fuel p a c b c1 done hloc hd =>
    have hl := (locate_some _ _ _ _ _ hloc).1
    rw [hl] at hq
    obtain ⟨h1, h2⟩ := DPT_CancelPendingReads_empties fuel c c1 done hd
    exact Quiet_replace a b c c1 hq ⟨Or.inl h1, by intro x hx; rw [h1] at hx; simp at hx⟩
  | close fuel fs r hc => exact DPT_Close_keeps_quiet fuel s fs r hq hc

theorem Reachable_quiet (L : SIZES) (X : COLLABORATORS) (s : DPT_STATE)
    (h : Reachable L X s) : Quiet s.DptSubscriptions := by
  induction h with
  | empty => intro c hc; simp at hc
  | step s s1 _ hs ih => exact Step_keeps_quiet L X s s1 ih hs

/-- C19 (queue exclusivity invariant): in every state reached from the empty registry
by completed steps - control requests (CreateSubscription among them), reads,
broadcasts, dispatches and returns of synchronous requests, cancellations of pended
reads, teardowns and closes - no registered subscriber has PendedReads and
PendedMessages both non-empty. -/
theorem Reachable_exclusive (L : SIZES) (X : COLLABORATORS) (s : DPT_STATE)
    (h : Reachable L X s) :
    ∀ c ∈ s.DptSubscriptions, ¬ (c.PendedReads ≠ [] ∧ c.PendedMessages ≠ []) := by
  intro c hc hboth
  rcases (Reachable_quiet L X s h c hc).1 with h1 | h1
  · exact hboth.1 h1
  · exact hboth.2 h1

theorem state8_reachable : Reachable sizes0 idleCollaborators state8 := by
  have h0 : Reachable sizes0 idleCollaborators
      { DptSubscriptions := [], DptRequests := [], DptRequestCounter := 0 } := Reachable.empty
  have h1 := Reachable.step _ _ h0
    (Step.control _ (CreateSubscription sizes0 false 7 none) (some 300)
      { State := { DptSubscriptions := [{ ctx0 300 false with pFileObject := 7 }],
                   DptRequests := [], DptRequestCounter := 0 },
        FsContext := some 300, Status := STATUS_SUCCESS, Information := 0,
        Forwarded := [], Stored := none } (by decide))
  exact Reachable.step _ _ h1 (Step.publish _ (msg0 1) state8 [] (by decide))

theorem Reachable_exclusive_witness :
    Reachable sizes0 idleCollaborators state8 ∧
    ∀ c ∈ state8.DptSubscriptions, ¬ (c.PendedReads ≠ [] ∧ c.PendedMessages ≠ []) :=
  ⟨state8_reachable, Reachable_exclusive sizes0 idleCollaborators state8 state8_reachable⟩

theorem state9_reachable : Reachable sizes0 idleCollaborators state9 := by
  have h0 : Reachable sizes0 idleCollaborators
      { DptSubscriptions := [], DptRequests := [], DptRequestCounter := 0 } := Reachable.empty
  have h1 := Reachable.step _ _ h0
    (Step.control _ (CreateSubscription sizes0 false 7 none) (some 300)
      { State := { DptSubscriptions := [{ ctx0 300 false with pFileObject := 7 }],
                   DptRequests := [], DptRequestCounter := 0 },
        FsContext := some 300, Status := STATUS_SUCCESS, Information := 0,
        Forwarded := [], Stored := none } (by decide))
  exact Reachable.step _ _ h1
    (Step.read _ (some 300) (irp0 1)
      { State := state9, Irp := pended9, Status := STATUS_PENDING, Completed := false }
      (by decide))

/-- In `state10` a message sent to the subscriber at 300 completes its pended read
with the whole message at address 4096 + 24, what MmGetSystemAddressForMdlSafe
returns plus the byte offset, and a read on the subscriber at 301 is served its
pended message at the same sum for its own MDL. -/
theorem state10_copies :
    pended9.MdlAddress
      = some { ByteCount := 16, ByteOffset := 24, Mapped := true, MappedSystemVa := 4096 } ∧
    DPT_SendMessage sizes0 ctx9 (msg0 5)
      = some ({ ctx9 with PendedReads := [], PendedReadsCount := 0 }, true,
          [{ pended9 with
              CancelRoutine := false,
              Data := some { Destination := 4096 + 24, Source := msg0 5, Length := 16 },
              IoStatus := { Status := STATUS_SUCCESS, Information := 16 } }]) ∧
    ∃ r, DPT_Read sizes0 state10 (some 301) (irp0 2) = some r ∧
      r.Status = STATUS_SUCCESS ∧ r.Completed = true ∧
      r.Irp.IoStatus = { Status := STATUS_SUCCESS, Information := 16 } ∧
      r.Irp.Data = some { Destination := 4096 + 24, Source := msg0 1, Length := 16 } := by
  refine ⟨rfl, by decide, _, rfl, ?_, ?_, ?_, ?_⟩ <;> decide

/-! ## FinishRequest for a call without response buffer -/

/-- When the entry found by DPT_FindRequestNoLock has a NULL pResponse, the memmove
of line 619 goes through the NULL pointer: the routine does not return. -/
theorem FinishRequest_null_buffer (L : SIZES) (X : COLLABORATORS) (s : DPT_STATE)
    (r : PARSER_RESPONSE_MESSAGE) (a b : List REQUEST_ENTRY) (e : REQUEST_ENTRY)
    (hfind : DPT_FindRequestNoLock s.DptRequests r.RequestId = some (a, e, b))
    (hnull : e.pResponse = none) :
    DPT_Control L X s (FinishRequest L r) none = none := by
  simp [DPT_Control, FinishRequest, hfind, hnull]

/-- C21 (no write through an absent response buffer), evaluated where the code departs
from it: DPT_SynchronouseRequest is called with pResponse NULL on a registry with one
servicing subscriber and is given RequestId 1; its entry is registered with a NULL
pResponse; FinishRequest with RequestId 1 finds that entry and copies through the
NULL pointer, so neither FinishRequest nor the call returns. -/
theorem FinishRequest_writes_through_null :
    ∃ s1 req t done a e b,
      DPT_SynchronouseRequest.issue sizes0 state0 (msg0 7) none 5000 500 0
        = some (some (s1, req, t, done)) ∧
      req.RequestId = (resp0 1).RequestId ∧
      DPT_FindRequestNoLock s1.DptRequests (resp0 1).RequestId = some (a, e, b) ∧
      e.Addr = 500 ∧ e.pResponse = none ∧
      DPT_Control sizes0 idleCollaborators s1 (FinishRequest sizes0 (resp0 1)) none = none ∧
      DPT_SynchronouseRequest sizes0 state0 (msg0 7) none 5000 500 0
        (finishing sizes0 idleCollaborators (resp0 1)) = none := by
  refine ⟨_, _, _, _, _, _, _, rfl, ?_, rfl, ?_, ?_, ?_, ?_⟩ <;> decide

/-! ## The length reported by a successful read -/

/-- The loop of DPT_CancelPendingReads is its single turn, repeated until the queue
is empty or the fuel is used up. -/
theorem DPT_CancelPendingReads.reads_pass (fuel : Nat) (pIrp : IRP) (rest : List IRP)
    (n : Nat) :
    DPT_CancelPendingReads.reads (fuel + 1) (pIrp :: rest) n
      = (DPT_CancelPendingReads.reads fuel
          (DPT_CancelPendingReads.pass (pIrp :: rest) n).1
          (DPT_CancelPendingReads.pass (pIrp :: rest) n).2.1).map
        (fun r =>
          (r.1, r.2.1, (DPT_CancelPendingReads.pass (pIrp :: rest) n).2.2 ++ r.2.2)) := by
  by_cases h : pIrp.CancelRoutine = true
  · simp only [DPT_CancelPendingReads.reads, DPT_CancelPendingReads.pass, IoSetCancelRoutine, h,
      if_true]
    cases DPT_CancelPendingReads.reads fuel rest (ulongDec n) with
    | none => rfl
    | some r => rfl
  · have h2 : pIrp.CancelRoutine = false := by simpa using h
    simp only [DPT_CancelPendingReads.reads, DPT_CancelPendingReads.pass, IoSetCancelRoutine, h2,
      Bool.false_eq_true, if_false]
    cases DPT_CancelPendingReads.reads fuel
        ({ pIrp with CancelRoutine := false } :: rest) n with
    | none => rfl
    | some r => simp

theorem locate_split (p : Nat) (A : List SUBSCRIPTION_CONTEXT) (c : SUBSCRIPTION_CONTEXT)
    (B : List SUBSCRIPTION_CONTEXT) (hc : c.Addr = p) (hA : ∀ y ∈ A, y.Addr ≠ p) :
    locate (fun c : SUBSCRIPTION_CONTEXT => decide (c.Addr = p)) (A ++ c :: B)
      = some (A, c, B) := by
  apply locate_append
  · intro y hy
    simpa using hA y hy
  · simpa using hc

/-- DPT_Read establishes `Pending`: on a registry with valid pended reads, for the
first context at `p`, with no pended message, and an IRP at an address `q` that no
queue holds, valid and not cancelled, DPT_Read returns STATUS_PENDING without
completing the IRP and leaves it pending in the sense of `Pending`. -/
theorem DPT_Read_pends (L : SIZES) (s : DPT_STATE) (p q : Nat)
    (A : List SUBSCRIPTION_CONTEXT) (c : SUBSCRIPTION_CONTEXT) (B : List SUBSCRIPTION_CONTEXT)
    (pIrp : IRP) (hv : RegistryValid L s) (hs : s.DptSubscriptions = A ++ c :: B)
    (hc : c.Addr = p) (hA : ∀ y ∈ A, y.Addr ≠ p)
    (hfresh : ∀ y ∈ A ++ c :: B, ∀ z ∈ y.PendedReads, z.Addr ≠ q)
    (hq : pIrp.Addr = q) (hvalid : ValidRead L pIrp = true) (hcancel : pIrp.Cancel = false)
    (hm : c.PendedMessages = []) :
    ∃ r, DPT_Read L s (some p) pIrp = some r ∧ r.Status = STATUS_PENDING ∧
      r.Completed = false ∧
      Pending L p q { State := r.State, Completed := [], CallPending := false } := by
  have hloc := locate_split p A c B hc hA
  unfold ValidRead at hvalid
  cases hmdl : pIrp.MdlAddress with
  | none => simp [hmdl] at hvalid
  | some mdl =>
    simp only [hmdl, Bool.and_eq_true, decide_eq_true_eq] at hvalid
    have hlt : ¬ mdl.ByteCount < L.PARSER_MESSAGE := Nat.not_lt.mpr hvalid.2
    have hread : DPT_Read L s (some p) pIrp
        = some { State := { s with DptSubscriptions := A ++
                    { c with
                      PendedReads := c.PendedReads ++
                        [{ pIrp with
                            CancelRoutine := true, DriverContext0 := some c.Addr,
                            PendingReturned := true,
                            IoStatus := { Status := STATUS_PENDING, Information := 0 } }],
                      PendedReadsCount := ulongInc c.PendedReadsCount } :: B },
                 Irp := { pIrp with
                    CancelRoutine := true, DriverContext0 := some c.Addr,
                    PendingReturned := true,
                    IoStatus := { Status := STATUS_PENDING, Information := 0 } },
                 Status := STATUS_PENDING, Completed := false } := by
      simp [DPT_Read, hmdl, hlt, hvalid.1, hs, hloc, DPT_Read.locked, IoSetCancelRoutine,
        hcancel, hm, DPT_Read.cleanup]
    have hv1 := DPT_Read_keeps_valid L s (some p) pIrp _ hv hread
    refine ⟨_, hread, rfl, rfl, hv1, rfl, by simp, A, _, B, c.PendedReads, _, [], rfl, hc, hA,
      ?_, rfl, ?_, hq, rfl, hcancel, by rw [hc]⟩
    · intro y hy
      exact hfresh y (by
        simp only [List.mem_append, List.mem_cons] at hy ⊢
        tauto)
    · intro z hz
      rw [List.append_nil] at hz
      exact hfresh c (by simp) z hz

/-- Two executions from `world9`, where the read at 1 is pending on the context at
300. When the I/O manager takes the cancel routine first, the message finds no read
and is queued, the teardown waits, and DPT_ReadCancel completes the read as
cancelled. When the message comes first, the read is completed with it and the
I/O manager finds no routine to call. -/
theorem run_world9 :
    run sizes0 300 1 world9 [.take, .send (msg0 5), .pass, .call]
      = some { State := { state9 with DptSubscriptions :=
                  [{ ctx0 300 false with
                      pFileObject := 7, PendedMessages := [msg0 5],
                      PendedMessagesCount := 1 }] },
               Completed := [{ pended9 with
                  Cancel := true, CancelRoutine := false,
                  IoStatus := { Status := STATUS_CANCELLED, Information := 0 } }],
               CallPending := false } ∧
    run sizes0 300 1 world9 [.send (msg0 5), .take, .pass, .call]
      = some { State := { state9 with DptSubscriptions :=
                  [{ ctx0 300 false with pFileObject := 7 }] },
               Completed := [{ pended9 with
                  CancelRoutine := false,
                  Data := some { Destination := 4120, Source := msg0 5, Length := 16 },
                  IoStatus := { Status := STATUS_SUCCESS, Information := 16 } }],
               CallPending := false } := by
  constructor <;> decide

end EVhdParser
